import Mathlib

/-!
Verification development for the `mapbox-map-tools` library
(`src/mapbox-map-tools.js`, class `MapboxMapTools`).

The library is a thin dispatcher exposing map-manipulation tools
(add points / route / polygon, pan, fit bounds, set style, add vector
tileset layer, query rendered/source features, clear layers) executed
against an externally supplied Mapbox GL JS map engine.

The embedding below models:
  * JavaScript runtime values (`JVal`) as the library's handlers see them:
    argument objects are untyped property bags, property access on
    `null`/`undefined` throws, absent properties read as `undefined`,
    destructuring defaults apply only to `undefined`, `||` and `if`
    use JS truthiness, and template literals coerce values to strings;
  * the external map engine as the in-memory capability double the spec
    prescribes (layer list, source table, camera-call log, listener log,
    rendered-scene log).  `addSource`/`addLayer` reject duplicate
    identifiers; removal of an identifier not present is a no-op (the
    library always guards its removals, so this coincides with the
    source's behavior on well-formed styles; the real engine's
    "source is in use" restriction on `removeSource` is not modeled);
    `querySourceFeatures` returns the stored GeoJSON data of a geojson
    source (vector tile contents are external and modeled as empty);
  * exceptions as `Except String`; the JS `try`/`catch` in `executeTool`
    is the catch boundary converting them to error envelopes.  State
    mutated before a throw stays mutated, so every handler returns its
    final state alongside the `Except` result.

JS numbers are modeled as `Rat` (the handlers perform no arithmetic on
them beyond the integer layer counter, which is a separate `Nat`).
-/

namespace MapToolsModel

/-- JavaScript runtime values, as far as the library's handlers inspect
them.  `undef` is JavaScript `undefined` (distinct from `null`). -/
inductive JVal where
  | null
  | undef
  | bool (b : Bool)
  | num (q : Rat)
  | str (s : String)
  | arr (elems : List JVal)
  | obj (fields : List (String × JVal))
deriving Repr, Inhabited

/-- JS truthiness: `undefined`, `null`, `false`, `0`, `''` are falsy. -/
def JVal.truthy : JVal → Bool
  | .null => false
  | .undef => false
  | .bool b => b
  | .num q => q != 0
  | .str s => s != ""
  | .arr _ => true
  | .obj _ => true

/-- Property read on a value already known not to be `null`/`undefined`
(absent property or non-object receiver reads as `undefined`). -/
def JVal.getD : JVal → String → JVal
  | .obj fields, k =>
      match fields.find? (fun p => p.1 == k) with
      | some p => p.2
      | none => .undef
  | _, _ => JVal.undef

/-- Property read `v.k` with the JS TypeError on `null`/`undefined`
receivers.  Other primitives are boxed and read as `undefined`. -/
def jsGetProp (v : JVal) (k : String) : Except String JVal :=
  match v with
  | .null => .error ("Cannot read properties of null (reading '" ++ k ++ "')")
  | .undef => .error ("Cannot read properties of undefined (reading '" ++ k ++ "')")
  | v => .ok (v.getD k)

/-- Destructuring default `{ x = d } = ...`: applies only to `undefined`. -/
def jsDefault (v d : JVal) : JVal :=
  match v with
  | .undef => d
  | v => v

/-- JS `a || b`. -/
def jsOr (a b : JVal) : JVal := if a.truthy then a else b

/-- `v.length` as the handlers use it, with the TypeError on
`null`/`undefined`.  Arrays and strings have numeric lengths; other
objects read their `length` property; remaining primitives give
`undefined`. -/
def jsLength (v : JVal) : Except String JVal :=
  match v with
  | .null => .error "Cannot read properties of null (reading 'length')"
  | .undef => .error "Cannot read properties of undefined (reading 'length')"
  | .arr xs => .ok (.num xs.length)
  | .str s => .ok (.num s.length)
  | .obj fields => .ok ((JVal.obj fields).getD "length")
  | _ => .ok JVal.undef

/-- `xs[i]` on an array (out of range reads as `undefined`). -/
def jsIndex (v : JVal) (i : Nat) : JVal :=
  match v with
  | .arr xs => xs.getD i .undef
  | _ => JVal.undef

/-! ### Decimal rendering of the layer counter

JS template literals render the integer layer counter in decimal.
`natDigitsCore` is fuel-indexed so that it is structural (and hence
kernel-reducible); `natStr n` always uses sufficient fuel. -/

/-- The decimal digit character for `d < 10`. -/
def digitChar10 (d : Nat) : Char := Char.ofNat (48 + d)

/-- Decimal digits of `n`, most significant first; `fuel > n` suffices. -/
def natDigitsCore : Nat → Nat → List Char
  | 0, _ => []
  | fuel + 1, n =>
      if n < 10 then [digitChar10 n]
      else natDigitsCore fuel (n / 10) ++ [digitChar10 (n % 10)]

/-- Decimal rendering of a natural number, as a JS template literal
renders the layer counter. -/
def natStr (n : Nat) : String := ⟨natDigitsCore (n + 1) n⟩

/-- Left inverse of decimal rendering, used to prove injectivity. -/
def parseDigits (cs : List Char) : Nat :=
  cs.foldl (fun a c => 10 * a + (c.toNat - 48)) 0

theorem toNat_digitChar10 {d : Nat} (h : d < 10) :
    (digitChar10 d).toNat = 48 + d := by
  interval_cases d <;> decide

theorem parseDigits_append_digit (cs : List Char) {d : Nat} (h : d < 10) :
    parseDigits (cs ++ [digitChar10 d]) = 10 * parseDigits cs + d := by
  simp [parseDigits, List.foldl_append, toNat_digitChar10 h]

theorem parseDigits_natDigitsCore :
    ∀ (fuel n : Nat), n < fuel → parseDigits (natDigitsCore fuel n) = n := by
  intro fuel
  induction fuel with
  | zero => intro n h; omega
  | succ fuel ih =>
      intro n h
      by_cases h10 : n < 10
      · simp [natDigitsCore, h10, parseDigits, toNat_digitChar10 h10]
      · have hdiv : n / 10 < fuel := by
          have := Nat.div_lt_self (by omega : 0 < n) (by omega : 1 < 10)
          omega
        have hmod : n % 10 < 10 := Nat.mod_lt _ (by omega)
        simp only [natDigitsCore, if_neg h10]
        rw [parseDigits_append_digit _ hmod, ih _ hdiv]
        omega

theorem parseDigits_natStr (n : Nat) : parseDigits (natStr n).data = n :=
  parseDigits_natDigitsCore (n + 1) n (Nat.lt_succ_self n)

theorem natStr_inj {a b : Nat} (h : natStr a = natStr b) : a = b := by
  have := congrArg (fun s => parseDigits s.data) h
  simpa [parseDigits_natStr] using this

/-- Every character printed by `natDigitsCore` is a decimal digit. -/
theorem mem_natDigitsCore_digit :
    ∀ (fuel n : Nat) (c : Char), c ∈ natDigitsCore fuel n →
      ∃ d, d < 10 ∧ c = digitChar10 d := by
  intro fuel
  induction fuel with
  | zero => intro n c h; simp [natDigitsCore] at h
  | succ fuel ih =>
      intro n c h
      by_cases h10 : n < 10
      · simp [natDigitsCore, h10] at h
        exact ⟨n, h10, h⟩
      · simp only [natDigitsCore, if_neg h10, List.mem_append, List.mem_singleton] at h
        rcases h with h | h
        · exact ih _ _ h
        · exact ⟨n % 10, Nat.mod_lt _ (by omega), h⟩

theorem dash_not_mem_natStr (n : Nat) : '-' ∉ (natStr n).data := by
  intro h
  obtain ⟨d, hd, hc⟩ := mem_natDigitsCore_digit (n + 1) n '-' h
  interval_cases d <;> simp_all [digitChar10]

theorem natStr_data_ne_nil (n : Nat) : (natStr n).data ≠ [] := by
  show natDigitsCore (n + 1) n ≠ []
  by_cases h10 : n < 10 <;> simp [natDigitsCore, h10]

/-- Splitting a character list at a final `'-'`-separator: if the parts
after the separator are dash-free, they agree. -/
theorem takeWhile_append_dash (u v : List Char) (hu : '-' ∉ u) :
    (u ++ '-' :: v).takeWhile (fun c => c != '-') = u := by
  induction u with
  | nil => simp [List.takeWhile]
  | cons c u ih =>
      have hc : c ≠ '-' := by intro h; exact hu (by simp [h])
      have hrest : '-' ∉ u := fun h => hu (by simp [h])
      have hcb : (c != '-') = true := by simp [hc]
      simp [List.takeWhile, hcb, ih hrest]

theorem append_dash_inj {a b x y : List Char}
    (hx : '-' ∉ x) (hy : '-' ∉ y)
    (h : a ++ '-' :: x = b ++ '-' :: y) : x = y := by
  have hrev := congrArg List.reverse h
  simp only [List.reverse_append, List.reverse_cons] at hrev
  have hx' : '-' ∉ x.reverse := by simpa using hx
  have hy' : '-' ∉ y.reverse := by simpa using hy
  have h1 : (x.reverse ++ '-' :: a.reverse).takeWhile (fun c => c != '-')
      = x.reverse := takeWhile_append_dash _ _ hx'
  have h2 : (y.reverse ++ '-' :: b.reverse).takeWhile (fun c => c != '-')
      = y.reverse := takeWhile_append_dash _ _ hy'
  have : x.reverse = y.reverse := by
    rw [← h1, ← h2]
    congr 1
    simpa [List.append_assoc] using hrev
  simpa using congrArg List.reverse this

/-- Two layer handles `p₁ ++ "-" ++ natStr n₁` and `p₂ ++ "-" ++ natStr n₂`
with distinct counter values are distinct, whatever the requested names. -/
theorem handle_inj {p₁ p₂ : String} {n₁ n₂ : Nat}
    (h : p₁ ++ "-" ++ natStr n₁ = p₂ ++ "-" ++ natStr n₂) : n₁ = n₂ := by
  have hdata := congrArg String.data h
  simp only [String.data_append] at hdata
  have h' : p₁.data ++ '-' :: (natStr n₁).data
      = p₂.data ++ '-' :: (natStr n₂).data := by
    simpa using hdata
  have := append_dash_inj (dash_not_mem_natStr n₁) (dash_not_mem_natStr n₂) h'
  exact natStr_inj (String.ext this)

/-! ### String coercion (JS template literals, `Array.prototype.join`)

JS numbers are binary doubles, whose decimal rendering always
terminates; `ratStr` renders any rational with a terminating decimal
expansion exactly and is only an approximation on the (unreachable)
non-terminating ones. -/

/-- Decimal digits of the fractional part `0 ≤ f < 1`; `none` if the
expansion does not terminate within `fuel` digits. -/
def decimalFracDigits : Nat → Rat → Option (List Char)
  | 0, f => if f = 0 then some [] else none
  | fuel + 1, f =>
      if f = 0 then some [] else
        let f10 := f * 10
        let d := f10.floor.toNat
        (decimalFracDigits fuel (f10 - f10.floor)).map (fun ds => digitChar10 d :: ds)

/-- Decimal rendering of a JS number. -/
def ratStr (q : Rat) : String :=
  let sign : String := if q < 0 then "-" else ""
  let a : Rat := |q|
  let ip : Nat := a.floor.toNat
  match decimalFracDigits 1100 (a - a.floor) with
  | some [] => sign ++ natStr ip
  | some ds => sign ++ natStr ip ++ "." ++ ⟨ds⟩
  | none => sign ++ natStr ip ++ ".(nonterminating)"

mutual

/-- JS `ToString` as template literals apply it. -/
def JVal.toStr : JVal → String
  | .null => "null"
  | .undef => "undefined"
  | .bool b => if b then "true" else "false"
  | .num q => ratStr q
  | .str s => s
  | .arr xs => String.intercalate "," (JVal.toStrArr xs)
  | .obj _ => "[object Object]"

/-- Elementwise rendering inside `Array.prototype.toString`/`join`
(`null`/`undefined` render as the empty string there). -/
def JVal.toStrArr : List JVal → List String
  | [] => []
  | .null :: xs => "" :: JVal.toStrArr xs
  | .undef :: xs => "" :: JVal.toStrArr xs
  | x :: xs => JVal.toStr x :: JVal.toStrArr xs

end

/-- JS `Array.prototype.join(sep)` with the TypeErrors of non-arrays. -/
def jsJoin (v : JVal) (sep : String) : Except String String :=
  match v with
  | .null => .error "Cannot read properties of null (reading 'join')"
  | .undef => .error "Cannot read properties of undefined (reading 'join')"
  | .arr xs => .ok (String.intercalate sep (JVal.toStrArr xs))
  | _ => .error "join is not a function"

/-! ### String predicates (`includes`, `endsWith`, `startsWith`) -/

def listPrefixB : List Char → List Char → Bool
  | [], _ => true
  | _ :: _, [] => false
  | a :: as, b :: bs => a == b && listPrefixB as bs

def listInfixB (p : List Char) : List Char → Bool
  | [] => p.isEmpty
  | c :: rest => listPrefixB p (c :: rest) || listInfixB p rest

/-- JS `s.includes(pat)`. -/
def jsIncludes (s pat : String) : Bool := listInfixB pat.data s.data

/-- JS `s.endsWith(pat)`. -/
def jsEndsWith (s pat : String) : Bool := pat.data.isSuffixOf s.data

/-- JS `s.startsWith(pat)` (also the anchored regex tests used here). -/
def jsStartsWith (s pat : String) : Bool := pat.data.isPrefixOf s.data

/-! ### `generateSourceId` (source lines 1434–1439)

`tilesetUrl.replace(/^(mapbox:\/\/|https?:\/\/)/, '')` strips one
leading scheme prefix; `.replace(/[^a-zA-Z0-9-_.]/g, '-')` replaces
every character outside letters/digits/`-`/`_`/`.` with `-`. -/

def stripSchemePrefix (s : String) : String :=
  if jsStartsWith s "mapbox://" then ⟨s.data.drop 9⟩
  else if jsStartsWith s "https://" then ⟨s.data.drop 8⟩
  else if jsStartsWith s "http://" then ⟨s.data.drop 7⟩
  else s

def sanitizeChar (c : Char) : Char :=
  let n := c.toNat
  if (97 ≤ n && n ≤ 122) || (65 ≤ n && n ≤ 90) || (48 ≤ n && n ≤ 57)
      || n == 45 || n == 95 || n == 46 then c else '-'

def generateSourceId (tilesetUrl : String) : String :=
  let cleanUrl : String := ⟨(stripSchemePrefix tilesetUrl).data.map sanitizeChar⟩
  cleanUrl ++ "-vector-source"

/-- `tilesetUrl.match(/^(mapbox:\/\/|https?:\/\/)/)` as a Bool. -/
def jsValidTilesetUrl (s : String) : Bool :=
  jsStartsWith s "mapbox://" || jsStartsWith s "http://" || jsStartsWith s "https://"

/-! ### The external map engine, as an in-memory capability double -/

structure LayerDef where
  id : String
  /-- The `type` field of the layer config, stored as the JS value the
  handler put there. -/
  ltype : JVal
  source : Option String := none
  sourceLayer : Option JVal := none
  paint : JVal := .obj []
  layout : Option JVal := none
  filter : Option JVal := none
  minzoom : Option JVal := none
  maxzoom : Option JVal := none
deriving Repr, Inhabited

structure SourceDef where
  stype : String
  data : JVal := .undef
  url : Option String := none
  tiles : Option (List String) := none
deriving Repr, Inhabited

/-- Camera mutations issued against the engine, in order. -/
inductive CamEvent where
  | flyTo (center : JVal × JVal) (zoom : JVal) (durationMs : Nat)
  | setCenter (center : JVal × JVal)
  | setZoom (zoom : JVal)
  | fitBounds (boundsPts : List JVal) (padding : JVal)
deriving Repr, Inhabited

structure MapState where
  layers : List LayerDef := []
  sources : List (String × SourceDef) := []
  camera : List CamEvent := []
  styleUrl : String := ""
  listeners : List (String × String) := []
  /-- Features the engine currently renders (externally owned scene). -/
  rendered : List JVal := []
  /-- Log of `queryRenderedFeatures` engine calls (geometry and options args). -/
  renderedQueryLog : List JVal := []
deriving Repr, Inhabited

def MapState.getLayer? (m : MapState) (id : String) : Option LayerDef :=
  m.layers.find? (fun l => l.id == id)

def MapState.getSource? (m : MapState) (id : String) : Option SourceDef :=
  (m.sources.find? (fun p => p.1 == id)).map (·.2)

def MapState.sourceIds (m : MapState) : List String := m.sources.map (·.1)

def MapState.addSource (m : MapState) (id : String) (src : SourceDef) :
    Except String MapState :=
  if (m.getSource? id).isSome then
    .error ("There is already a source with ID \"" ++ id ++ "\".")
  else .ok {m with sources := m.sources ++ [(id, src)]}

def MapState.addLayer (m : MapState) (l : LayerDef) : Except String MapState :=
  if (m.getLayer? l.id).isSome then
    .error ("Layer with id \"" ++ l.id ++ "\" already exists on this map.")
  else .ok {m with layers := m.layers ++ [l]}

/-- Removal double: dropping an identifier that is not present is a
no-op (the library guards its removals with `getLayer`/`getSource`, or
applies them to identifiers it just enumerated, so this matches the
source on well-formed styles). -/
def MapState.removeLayerD (m : MapState) (id : String) : MapState :=
  {m with layers := m.layers.filter (fun l => l.id != id)}

def MapState.removeSourceD (m : MapState) (id : String) : MapState :=
  {m with sources := m.sources.filter (fun p => p.1 != id)}

def MapState.on (m : MapState) (ev lid : String) : MapState :=
  {m with listeners := m.listeners ++ [(ev, lid)]}

def MapState.setStyle (m : MapState) (url : String) : MapState :=
  {m with styleUrl := url}

def MapState.queryRendered (m : MapState) (geom : Option JVal) (opts : JVal) :
    List JVal × MapState :=
  (m.rendered,
   {m with renderedQueryLog := m.renderedQueryLog ++ [.arr [geom.getD .undef, opts]]})

/-- The features a GeoJSON document contributes to `querySourceFeatures`. -/
def geoJSONFeatures (data : JVal) : List JVal :=
  match data.getD "type" with
  | .str t =>
      if t == "FeatureCollection" then
        match data.getD "features" with
        | .arr fs => fs
        | _ => []
      else if t == "Feature" then [data]
      else []
  | _ => []

/-- Engine `querySourceFeatures` double: a geojson source answers with
its stored data's features; vector tile contents are external and
answer empty. -/
def MapState.querySourceF (m : MapState) (id : String) : List JVal :=
  match m.getSource? id with
  | some src => if src.stype == "geojson" then geoJSONFeatures src.data else []
  | none => []

/-! ### The dispatcher object -/

structure ToolOptions where
  defaultPointColor : String := "#FF0000"
  defaultRouteColor : String := "#0074D9"
  defaultRouteWidth : Rat := 4
  defaultPolygonFillColor : String := "#FF0000"
  defaultPolygonFillOpacity : Rat := 0.3
  defaultPolygonStrokeColor : String := "#FF0000"
  defaultPolygonStrokeWidth : Rat := 2
  enablePopups : Bool := true
  enableHoverEffects : Bool := true
deriving Repr, Inhabited

structure MapboxMapTools where
  map : MapState
  options : ToolOptions := {}
  layerCounter : Nat := 0
deriving Repr, Inhabited

structure ContentItem where
  ctype : String
  text : String
deriving Repr, Inhabited, DecidableEq

/-- The uniform result envelope every handler returns. -/
structure Envelope where
  content : List ContentItem
  isError : Bool
  layerId : Option String := none
  sourceId : Option String := none
  data : Option JVal := none
deriving Repr, Inhabited

/-- The envelope `executeTool`'s catch produces from a thrown message. -/
def mkErrEnv (msg : String) : Envelope :=
  {content := [⟨"text", "Error: " ++ msg⟩], isError := true}

/-- A plain text success envelope. -/
def textEnv (txt : String) : Envelope :=
  {content := [⟨"text", txt⟩], isError := false}

/-! ### Remaining JS coercion helpers used by the handlers -/

/-- JS strict equality of a value against a number literal (`=== 0`). -/
def jsStrictEqNum (v : JVal) (q : Rat) : Bool :=
  match v with
  | .num x => x == q
  | _ => false

def ratTrunc (q : Rat) : Int := if q < 0 then -((-q).floor) else q.floor

/-- `xs.slice(0, limit)` with JS `ToInteger` coercion of `limit`
(exotic string/object coercions approximated as 0). -/
def jsSlice0 (xs : List JVal) (limit : JVal) : List JVal :=
  match limit with
  | .num q =>
      let len : Int := xs.length
      let k : Int := ratTrunc q
      let e : Int := if k < 0 then max (len + k) 0 else min k len
      xs.take e.toNat
  | .undef => xs
  | .bool b => xs.take (if b then 1 else 0)
  | .str s => match s.toNat? with | some n => xs.take n | none => []
  | _ => []

def padZeros (k : Nat) (s : String) : String :=
  ⟨List.replicate (k - s.data.length) '0'⟩ ++ s

/-- `v.toFixed(4)`, with the TypeErrors of non-numbers.  (JS rounds the
underlying binary double; exact ties round half away from zero here.) -/
def jsToFixed4 (fieldName : String) (v : JVal) : Except String String :=
  match v with
  | .null => .error "Cannot read properties of null (reading 'toFixed')"
  | .undef => .error "Cannot read properties of undefined (reading 'toFixed')"
  | .num q =>
      let sign := if q < 0 then "-" else ""
      let a := |q|
      let scaled : Int := (a * 10000 + 1 / 2 : Rat).floor
      let ip := (scaled / 10000).toNat
      let fp := (scaled % 10000).toNat
      .ok (sign ++ natStr ip ++ "." ++ padZeros 4 (natStr fp))
  | _ => .error (fieldName ++ ".toFixed is not a function")

/-- `Object.keys` (string keys of an object; indices of arrays/strings). -/
def jsKeys (v : JVal) : List String :=
  match v with
  | .obj fs => fs.map (·.1)
  | .str s => (List.range s.length).map natStr
  | .arr xs => (List.range xs.length).map natStr
  | _ => []

/-- What `{...v}` spreads: own enumerable properties. -/
def jsSpreadFields (v : JVal) : List (String × JVal) :=
  match v with
  | .obj fs => fs
  | .str s => s.data.enum.map (fun p => (natStr p.1, .str ⟨[p.2]⟩))
  | .arr xs => xs.enum.map (fun p => (natStr p.1, p.2))
  | _ => []

def jsAssignField (fs : List (String × JVal)) (k : String) (v : JVal) :
    List (String × JVal) :=
  if fs.any (·.1 == k) then fs.map (fun p => if p.1 == k then (p.1, v) else p)
  else fs ++ [(k, v)]

/-- `{ ...a, ...b }`: later fields override earlier ones in place. -/
def jsMerge (a b : JVal) : JVal :=
  .obj ((jsSpreadFields a ++ jsSpreadFields b).foldl
    (fun acc p => jsAssignField acc p.1 p.2) [])

/-- `layers.length > 0` under JS loose comparison (non-lengths are
`undefined > 0`, which is false). -/
def jsLenPos (v : JVal) : Bool :=
  match v with
  | .arr xs => decide (0 < xs.length)
  | .str s => decide (0 < s.length)
  | .obj fs =>
      match (JVal.obj fs).getD "length" with
      | .num q => decide (0 < q)
      | _ => false
  | _ => false

/-- The `defaultPaintByType` table of `addVectorTilesetLayer`
(source lines 1495–1501), looked up by the JS-coerced key. -/
def defaultPaintFor (layerType : JVal) : JVal :=
  match layerType.toStr with
  | "line" => .obj [("line-color", .str "#0074D9"), ("line-width", .num 2),
      ("line-opacity", .num 0.8)]
  | "fill" => .obj [("fill-color", .str "#FF0000"), ("fill-opacity", .num 0.3)]
  | "circle" => .obj [("circle-radius", .num 6), ("circle-color", .str "#FF0000"),
      ("circle-opacity", .num 0.8)]
  | "fill-extrusion" => .obj [("fill-extrusion-color", .str "#0074D9"),
      ("fill-extrusion-height", .num 10), ("fill-extrusion-opacity", .num 0.8)]
  | "symbol" => .obj [("text-color", .str "#000000"),
      ("text-halo-color", .str "#FFFFFF"), ("text-halo-width", .num 2)]
  | _ => JVal.undef

/-! ### The handlers (one per tool, source lines 1105–1705) -/

/-- One feature of the `points.map(...)` callback in `addPointsToMap`. -/
def pointFeature (opts : ToolOptions) (ip : Nat × JVal) : Except String JVal := do
  let (index, point) := ip
  let lon ← jsGetProp point "longitude"
  let lat ← jsGetProp point "latitude"
  let title ← jsGetProp point "title"
  let desc ← jsGetProp point "description"
  let color ← jsGetProp point "color"
  return .obj [
    ("type", .str "Feature"),
    ("geometry", .obj [("type", .str "Point"), ("coordinates", .arr [lon, lat])]),
    ("properties", .obj [
      ("title", jsOr title (.str ("Point " ++ natStr (index + 1)))),
      ("description", jsOr desc (.str "")),
      ("color", jsOr color (.str opts.defaultPointColor))])]

/-- `addPointsToMap` (source lines 1105–1175). -/
def MapboxMapTools.addPointsToMap (t : MapboxMapTools) (args : JVal) :
    Except String Envelope × MapboxMapTools :=
  match jsGetProp args "points" with
  | .error e => (.error e, t)
  | .ok points =>
    let layerName := jsDefault (args.getD "layerName") (.str "points-layer")
    let t1 := {t with layerCounter := t.layerCounter + 1}
    let uniqueLayerName := layerName.toStr ++ "-" ++ natStr t1.layerCounter
    match points with
    | .null => (.error "Cannot read properties of null (reading 'map')", t1)
    | .undef => (.error "Cannot read properties of undefined (reading 'map')", t1)
    | .arr pts =>
      match pts.enum.mapM (pointFeature t.options) with
      | .error e => (.error e, t1)
      | .ok features =>
        let geojson := JVal.obj [("type", .str "FeatureCollection"),
          ("features", .arr features)]
        let layerCfg : LayerDef := {
          id := uniqueLayerName
          ltype := JVal.str "circle"
          source := some uniqueLayerName
          paint := .obj [("circle-radius", .num 8),
            ("circle-color", .arr [.str "get", .str "color"]),
            ("circle-stroke-width", .num 2),
            ("circle-stroke-color", .str "#ffffff")] }
        match t1.map.addSource uniqueLayerName {stype := "geojson", data := geojson} with
        | .error e => (.error e, t1)
        | .ok m1 =>
          match m1.addLayer layerCfg with
          | .error e => (.error e, {t1 with map := m1})
          | .ok m2 =>
            let m3 := {m2 with listeners := m2.listeners
              ++ (if t.options.enablePopups then [("click", uniqueLayerName)] else [])
              ++ (if t.options.enableHoverEffects then
                    [("mouseenter", uniqueLayerName), ("mouseleave", uniqueLayerName)]
                  else [])}
            (.ok {content := [⟨"text", "Added " ++ natStr pts.length
                    ++ " points to map layer \"" ++ uniqueLayerName ++ "\""⟩],
                  isError := false, layerId := some uniqueLayerName},
             {t1 with map := m3})
    | _ => (.error "points.map is not a function", t1)

/-- `addRouteToMap` (source lines 1180–1221).  Note: no validation of
the coordinate list at all; the success text reads
`coordinates.length` only after the source and layer were added. -/
def MapboxMapTools.addRouteToMap (t : MapboxMapTools) (args : JVal) :
    Except String Envelope × MapboxMapTools :=
  match jsGetProp args "coordinates" with
  | .error e => (.error e, t)
  | .ok coordinates =>
    let color := jsDefault (args.getD "color") (.str t.options.defaultRouteColor)
    let width := jsDefault (args.getD "width") (.num t.options.defaultRouteWidth)
    let layerName := jsDefault (args.getD "layerName") (.str "route-layer")
    let t1 := {t with layerCounter := t.layerCounter + 1}
    let uniqueLayerName := layerName.toStr ++ "-" ++ natStr t1.layerCounter
    let geojson := JVal.obj [("type", .str "Feature"),
      ("geometry", .obj [("type", .str "LineString"), ("coordinates", coordinates)])]
    let layerCfg : LayerDef := {
      id := uniqueLayerName
      ltype := JVal.str "line"
      source := some uniqueLayerName
      paint := .obj [("line-color", color), ("line-width", width),
        ("line-opacity", .num 0.8)] }
    match t1.map.addSource uniqueLayerName {stype := "geojson", data := geojson} with
    | .error e => (.error e, t1)
    | .ok m1 =>
      match m1.addLayer layerCfg with
      | .error e => (.error e, {t1 with map := m1})
      | .ok m2 =>
        match jsLength coordinates with
        | .error e => (.error e, {t1 with map := m2})
        | .ok lenv =>
          (.ok {content := [⟨"text", "Added route with " ++ lenv.toStr
                  ++ " points to map layer \"" ++ uniqueLayerName ++ "\""⟩],
                isError := false, layerId := some uniqueLayerName},
           {t1 with map := m2})

/-- `panMapToLocation` (source lines 1226–1247). -/
def MapboxMapTools.panMapToLocation (t : MapboxMapTools) (args : JVal) :
    Except String Envelope × MapboxMapTools :=
  match jsGetProp args "longitude" with
  | .error e => (.error e, t)
  | .ok longitude =>
    let latitude := args.getD "latitude"
    let zoom := jsDefault (args.getD "zoom") (.num 12)
    let animate := jsDefault (args.getD "animate") (.bool true)
    let m1 := {t.map with camera := t.map.camera ++
      (if animate.truthy then [CamEvent.flyTo (longitude, latitude) zoom 2000]
       else [CamEvent.setCenter (longitude, latitude), CamEvent.setZoom zoom])}
    match jsToFixed4 "latitude" latitude with
    | .error e => (.error e, {t with map := m1})
    | .ok latS =>
      match jsToFixed4 "longitude" longitude with
      | .error e => (.error e, {t with map := m1})
      | .ok lonS =>
        (.ok (textEnv ("Map centered on " ++ latS ++ ", " ++ lonS
            ++ " at zoom level " ++ zoom.toStr)), {t with map := m1})

/-- `fitMapToBounds` (source lines 1252–1272).  The engine's
`LngLatBounds` is modeled as the list of points it was extended with:
`new LngLatBounds(coordinates[0], coordinates[0])` then one `extend`
per coordinate of the `reduce`. -/
def MapboxMapTools.fitMapToBounds (t : MapboxMapTools) (args : JVal) :
    Except String Envelope × MapboxMapTools :=
  match jsGetProp args "coordinates" with
  | .error e => (.error e, t)
  | .ok coordinates =>
    let padding := jsDefault (args.getD "padding") (.num 50)
    match jsLength coordinates with
    | .error e => (.error e, t)
    | .ok lenv =>
      if jsStrictEqNum lenv 0 then (.error "No coordinates provided", t)
      else
        match coordinates with
        | .arr cs =>
          let c0 := jsIndex coordinates 0
          let boundsPts := [c0, c0] ++ cs
          let m1 := {t.map with camera := t.map.camera
            ++ [CamEvent.fitBounds boundsPts padding]}
          (.ok (textEnv ("Map view adjusted to fit "
              ++ (JVal.num cs.length).toStr ++ " coordinates")), {t with map := m1})
        | _ => (.error "coordinates.reduce is not a function", t)

/-- `addPolygonToMap` (source lines 1277–1332): one geojson source named
by the base handle, plus a `-fill` and a `-stroke` rendering layer. -/
def MapboxMapTools.addPolygonToMap (t : MapboxMapTools) (args : JVal) :
    Except String Envelope × MapboxMapTools :=
  match jsGetProp args "coordinates" with
  | .error e => (.error e, t)
  | .ok coordinates =>
    let fillColor := jsDefault (args.getD "fillColor") (.str t.options.defaultPolygonFillColor)
    let fillOpacity := jsDefault (args.getD "fillOpacity") (.num t.options.defaultPolygonFillOpacity)
    let strokeColor := jsDefault (args.getD "strokeColor") (.str t.options.defaultPolygonStrokeColor)
    let strokeWidth := jsDefault (args.getD "strokeWidth") (.num t.options.defaultPolygonStrokeWidth)
    let layerName := jsDefault (args.getD "layerName") (.str "polygon-layer")
    let t1 := {t with layerCounter := t.layerCounter + 1}
    let uniqueLayerName := layerName.toStr ++ "-" ++ natStr t1.layerCounter
    let geojson := JVal.obj [("type", .str "Feature"),
      ("geometry", .obj [("type", .str "Polygon"), ("coordinates", coordinates)])]
    let fillCfg : LayerDef := {
      id := uniqueLayerName ++ "-fill"
      ltype := JVal.str "fill"
      source := some uniqueLayerName
      paint := .obj [("fill-color", fillColor), ("fill-opacity", fillOpacity)] }
    let strokeCfg : LayerDef := {
      id := uniqueLayerName ++ "-stroke"
      ltype := JVal.str "line"
      source := some uniqueLayerName
      paint := .obj [("line-color", strokeColor), ("line-width", strokeWidth)] }
    match t1.map.addSource uniqueLayerName {stype := "geojson", data := geojson} with
    | .error e => (.error e, t1)
    | .ok m1 =>
      match m1.addLayer fillCfg with
      | .error e => (.error e, {t1 with map := m1})
      | .ok m2 =>
        match m2.addLayer strokeCfg with
        | .error e => (.error e, {t1 with map := m2})
        | .ok m3 =>
          (.ok {content := [⟨"text", "Added polygon to map layer \""
                  ++ uniqueLayerName ++ "\""⟩],
                isError := false, layerId := some uniqueLayerName},
           {t1 with map := m3})

/-! #### `clearMapLayers` (source lines 1337–1409) -/

/-- The naming convention of the remove-all branch (and of
`getCustomLayerIds`): id contains `-layer-`, or ends in `-fill` or
`-stroke`. -/
def convMatch (id : String) : Bool :=
  jsIncludes id "-layer-" || jsEndsWith id "-fill" || jsEndsWith id "-stroke"

/-- `customLayers.forEach(layer => { if (getLayer) { removeLayer; removedCount++ } })`. -/
def removeLayersLoop : List String → MapState → Nat → MapState × Nat
  | [], m, c => (m, c)
  | id :: rest, m, c =>
      if (m.getLayer? id).isSome then removeLayersLoop rest (m.removeLayerD id) (c + 1)
      else removeLayersLoop rest m c

/-- `sources.forEach(id => { if (id.includes('-layer-')) removeSource(id) })`. -/
def removeDashLayerSources (ids : List String) (m : MapState) : MapState :=
  ids.foldl (fun m id => if jsIncludes id "-layer-" then m.removeSourceD id else m) m

/-- `usedSources`: the sources still referenced by a remaining layer
(the JS `.filter(Boolean)` drops empty-string references). -/
def usedOf (layers : List LayerDef) : List String :=
  (layers.filterMap (·.source)).filter (fun s => s != "")

/-- The orphaned-vector-source sweep shared by both branches of
`clearMapLayers`: `usedSources` is computed once, before the loop. -/
def sweepOrphanVectorSources (ids : List String) (m : MapState) : MapState :=
  ids.foldl (fun acc id =>
    if jsEndsWith id "-vector-source" && !((usedOf m.layers).contains id)
        && (acc.getSource? id).isSome
    then acc.removeSourceD id else acc) m

/-- `layerNames.forEach(...)` of the explicit-names branch: remove the
named layer if present (counting it), then the same-named source if
present. -/
def removeNamedLoop : List JVal → MapState → Nat → MapState × Nat
  | [], m, c => (m, c)
  | x :: rest, m, c =>
      let key := x.toStr
      let p1 := if (m.getLayer? key).isSome then (m.removeLayerD key, c + 1) else (m, c)
      let m2 := if (p1.1.getSource? key).isSome then p1.1.removeSourceD key else p1.1
      removeNamedLoop rest m2 p1.2

/-- `clearMapLayers` (source lines 1337–1409). -/
def MapboxMapTools.clearMapLayers (t : MapboxMapTools) (args : JVal) :
    Except String Envelope × MapboxMapTools :=
  match jsGetProp args "layerNames" with
  | .error e => (.error e, t)
  | .ok layerNamesRaw =>
    let layerNames := jsDefault layerNamesRaw (.arr [])
    match jsLength layerNames with
    | .error e => (.error e, t)
    | .ok lenv =>
      if jsStrictEqNum lenv 0 then
        let m0 := t.map
        let customIds := (m0.layers.filter (fun l => convMatch l.id)).map (·.id)
        let p := removeLayersLoop customIds m0 0
        let srcIds := p.1.sourceIds
        let m2 := removeDashLayerSources srcIds p.1
        let m3 := sweepOrphanVectorSources srcIds m2
        (.ok (textEnv ("Removed " ++ natStr p.2 ++ " layers from the map")),
         {t with map := m3})
      else
        match layerNames with
        | .arr names =>
          let p := removeNamedLoop names t.map 0
          let m2 := sweepOrphanVectorSources p.1.sourceIds p.1
          (.ok (textEnv ("Removed " ++ natStr p.2 ++ " layers from the map")),
           {t with map := m2})
        | _ => (.error "layerNames.forEach is not a function", t)

/-- `setMapStyle` (source lines 1414–1427). -/
def MapboxMapTools.setMapStyle (t : MapboxMapTools) (args : JVal) :
    Except String Envelope × MapboxMapTools :=
  match jsGetProp args "style" with
  | .error e => (.error e, t)
  | .ok style =>
    let styleUrl := "mapbox://styles/mapbox/" ++ style.toStr
    (.ok (textEnv ("Changed map style to " ++ style.toStr)),
     {t with map := t.map.setStyle styleUrl})

/-- `addVectorTilesetLayer` (source lines 1455–1541).  The URL is
validated BEFORE the layer counter is incremented; the source id is the
deterministic `generateSourceId` of the URL and the source is only
added when absent. -/
def MapboxMapTools.addVectorTilesetLayer (t : MapboxMapTools) (args : JVal) :
    Except String Envelope × MapboxMapTools :=
  match jsGetProp args "tilesetUrl" with
  | .error e => (.error e, t)
  | .ok tilesetUrl =>
    let sourceLayer := args.getD "sourceLayer"
    let layerType := args.getD "layerType"
    let layerName := jsDefault (args.getD "layerName") (.str "vector-tileset-layer")
    let paint := jsDefault (args.getD "paint") (.obj [])
    let layout := jsDefault (args.getD "layout") (.obj [])
    let filter := args.getD "filter"
    let minzoom := args.getD "minzoom"
    let maxzoom := args.getD "maxzoom"
    match tilesetUrl with
    | .null => (.error "Cannot read properties of null (reading 'match')", t)
    | .undef => (.error "Cannot read properties of undefined (reading 'match')", t)
    | .str url =>
      if !jsValidTilesetUrl url then
        (.error "Invalid tileset URL format. Must start with \"mapbox://\" or \"http(s)://\"", t)
      else
        let t1 := {t with layerCounter := t.layerCounter + 1}
        let uniqueLayerName := layerName.toStr ++ "-" ++ natStr t1.layerCounter
        let sourceId := generateSourceId url
        let m1 :=
          if (t1.map.getSource? sourceId).isSome then t1.map
          else {t1.map with sources := t1.map.sources ++
            [(sourceId,
              if jsStartsWith url "mapbox://" then {stype := "vector", url := some url}
              else {stype := "vector", tiles := some [url]})]}
        let layerConfig : LayerDef := {
          id := uniqueLayerName, ltype := layerType, source := some sourceId,
          sourceLayer := some sourceLayer,
          paint := jsMerge (defaultPaintFor layerType) paint,
          layout := if layout.truthy && decide (0 < (jsKeys layout).length)
            then some layout else none,
          filter := if filter.truthy then some filter else none,
          minzoom := match minzoom with | .undef => none | v => some v,
          maxzoom := match maxzoom with | .undef => none | v => some v}
        match m1.addLayer layerConfig with
        | .error e => (.error e, {t1 with map := m1})
        | .ok m2 =>
          (.ok {content := [⟨"text", "Added vector tileset layer \"" ++ uniqueLayerName
                  ++ "\" from source \"" ++ sourceId ++ "\" (source layer: \""
                  ++ sourceLayer.toStr ++ "\")"⟩],
                isError := false, layerId := some uniqueLayerName,
                sourceId := some sourceId}, {t1 with map := m2})
    | _ => (.error "tilesetUrl.match is not a function", t)

/-- The geometry-stripping map of `queryRenderedFeatures`
(`{type, properties, layer, source, sourceLayer}`). -/
def stripGeometryRendered (f : JVal) : Except String JVal := do
  let props ← jsGetProp f "properties"
  let layer ← jsGetProp f "layer"
  let src ← jsGetProp f "source"
  let sl ← jsGetProp f "sourceLayer"
  return .obj [("type", .str "Feature"), ("properties", props), ("layer", layer),
    ("source", src), ("sourceLayer", sl)]

/-- `queryRenderedFeatures` (source lines 1554–1629). -/
def MapboxMapTools.queryRenderedFeatures (t : MapboxMapTools) (args : JVal) :
    Except String Envelope × MapboxMapTools :=
  match jsGetProp args "point" with
  | .error e => (.error e, t)
  | .ok point =>
    let bbox := args.getD "bbox"
    let layers := args.getD "layers"
    let filter := args.getD "filter"
    let limit := jsDefault (args.getD "limit") (.num 100)
    let includeGeometry := jsDefault (args.getD "includeGeometry") (.bool true)
    if point.truthy && bbox.truthy then
      (.error "Cannot specify both point and bbox parameters. Use one or the other.", t)
    else
      let geomE : Except String (Option JVal) :=
        if point.truthy then
          match point.getD "x", point.getD "y" with
          | .num x, .num y => .ok (some (.arr [.num x, .num y]))
          | _, _ => .error "Invalid point coordinates. Expected \x7bx: number, y: number\x7d."
        else if bbox.truthy then
          match bbox with
          | .arr bs =>
              if bs.length == 4 then
                .ok (some (.arr [.arr [jsIndex bbox 0, jsIndex bbox 1],
                  .arr [jsIndex bbox 2, jsIndex bbox 3]]))
              else .error "Invalid bbox format. Expected [x1, y1, x2, y2]."
          | _ => .error "Invalid bbox format. Expected [x1, y1, x2, y2]."
        else .ok none
      match geomE with
      | .error e => (.error e, t)
      | .ok queryGeometry =>
        let options := JVal.obj
          ((if layers.truthy && jsLenPos layers then [("layers", layers)] else [])
            ++ (if filter.truthy then [("filter", filter)] else []))
        let p := t.map.queryRendered queryGeometry options
        let features1 := jsSlice0 p.1 limit
        match (if includeGeometry.truthy then Except.ok features1
               else features1.mapM stripGeometryRendered) with
        | .error e => (.error e, {t with map := p.2})
        | .ok features =>
          let featureCollection := JVal.obj [("type", .str "FeatureCollection"),
            ("features", .arr features)]
          let qdesc :=
            if point.truthy then
              "at point (" ++ (point.getD "x").toStr ++ ", " ++ (point.getD "y").toStr ++ ")"
            else if bbox.truthy then
              match bbox with
              | .arr bs => "in bbox [" ++ String.intercalate ", " (JVal.toStrArr bs) ++ "]"
              | _ => "in bbox []"
            else "in viewport"
          let layersSuffix : Except String String :=
            if layers.truthy then (jsJoin layers ", ").map (fun j => " in layers: " ++ j)
            else .ok ""
          match layersSuffix with
          | .error e => (.error e, {t with map := p.2})
          | .ok lsuf =>
            let n := features.length
            (.ok {content := [⟨"text", "Found " ++ natStr n ++ " rendered feature"
                    ++ (if n != 1 then "s" else "") ++ " " ++ qdesc ++ lsuf⟩],
                  isError := false, data := some featureCollection},
             {t with map := p.2})

/-- The geometry-stripping map of `querySourceFeatures`
(`{type, properties, source, sourceLayer}`). -/
def stripGeometrySource (f : JVal) : Except String JVal := do
  let props ← jsGetProp f "properties"
  let src ← jsGetProp f "source"
  let sl ← jsGetProp f "sourceLayer"
  return .obj [("type", .str "Feature"), ("properties", props), ("source", src),
    ("sourceLayer", sl)]

/-- `querySourceFeatures` (source lines 1641–1705). -/
def MapboxMapTools.querySourceFeatures (t : MapboxMapTools) (args : JVal) :
    Except String Envelope × MapboxMapTools :=
  match jsGetProp args "sourceId" with
  | .error e => (.error e, t)
  | .ok sourceIdV =>
    let sourceLayer := args.getD "sourceLayer"
    let limit := jsDefault (args.getD "limit") (.num 1000)
    let includeGeometry := jsDefault (args.getD "includeGeometry") (.bool true)
    let sourceId := sourceIdV.toStr
    match t.map.getSource? sourceId with
    | none =>
        let avail := String.intercalate ", " t.map.sourceIds
        let availS := if avail == "" then "none" else avail
        (.error ("Source \"" ++ sourceIdV.toStr ++ "\" not found. Available sources: "
          ++ availS ++ ". Make sure you're using the correct source ID from layer creation."), t)
    | some source =>
        if source.stype == "vector" && !sourceLayer.truthy then
          (.error "sourceLayer parameter is required for vector tile sources", t)
        else
          let features0 := t.map.querySourceF sourceId
          let features1 := jsSlice0 features0 limit
          match (if includeGeometry.truthy then Except.ok features1
                 else features1.mapM stripGeometrySource) with
          | .error e => (.error e, t)
          | .ok features =>
            let fc := JVal.obj [("type", .str "FeatureCollection"),
              ("features", .arr features)]
            let n := features.length
            (.ok {content := [⟨"text", "Found " ++ natStr n ++ " feature"
                    ++ (if n != 1 then "s" else "") ++ " from source \""
                    ++ sourceIdV.toStr ++ "\""
                    ++ (if sourceLayer.truthy then " (layer: " ++ sourceLayer.toStr ++ ")"
                        else "")⟩],
                  isError := false, data := some fc}, t)

/-! ### The dispatcher (source lines 1062–1100) -/

/-- The `switch` of `executeTool`, before the `try`/`catch` boundary:
either the handler's result, or the message it threw (the unknown-tool
branch throws `Unknown tool: ...`). -/
def MapboxMapTools.rawDispatch (t : MapboxMapTools) (toolName : String) (args : JVal) :
    Except String Envelope × MapboxMapTools :=
  match toolName with
  | "add_points_to_map" => t.addPointsToMap args
  | "add_route_to_map" => t.addRouteToMap args
  | "pan_map_to_location" => t.panMapToLocation args
  | "fit_map_to_bounds" => t.fitMapToBounds args
  | "add_polygon_to_map" => t.addPolygonToMap args
  | "clear_map_layers" => t.clearMapLayers args
  | "set_map_style" => t.setMapStyle args
  | "add_vector_tileset_layer" => t.addVectorTilesetLayer args
  | "query_rendered_features" => t.queryRenderedFeatures args
  | "query_source_features" => t.querySourceFeatures args
  | _ => (.error ("Unknown tool: " ++ toolName), t)

/-- The fixed tool names of the dispatch mapping. -/
def knownToolNames : List String :=
  ["add_points_to_map", "add_route_to_map", "pan_map_to_location",
   "fit_map_to_bounds", "add_polygon_to_map", "clear_map_layers",
   "set_map_style", "add_vector_tileset_layer", "query_rendered_features",
   "query_source_features"]

/-- `executeTool` (source lines 1062–1100): the `try`/`catch` boundary
converting any thrown error into `{content:[{type:'text', text:
'Error: ' + message}], isError: true}`. -/
def MapboxMapTools.executeTool (t : MapboxMapTools) (toolName : String) (args : JVal) :
    Envelope × MapboxMapTools :=
  match t.rawDispatch toolName args with
  | (.ok env, t') => (env, t')
  | (.error msg, t') => (mkErrEnv msg, t')

/-- `minItems: 2` on `add_route_to_map`'s `coordinates` in the tool
catalog (source line 761) — schema data offered to the LLM, not
enforced anywhere in the handlers. -/
def routeSchemaCoordinatesMinItems : Nat := 2

/-! ## Engine-level helper lemmas -/

theorem addSource_of_none {m : MapState} {id : String} (src : SourceDef)
    (h : m.getSource? id = none) :
    m.addSource id src = .ok {m with sources := m.sources ++ [(id, src)]} := by
  simp [MapState.addSource, h]

theorem addLayer_of_none {m : MapState} {l : LayerDef}
    (h : m.getLayer? l.id = none) :
    m.addLayer l = .ok {m with layers := m.layers ++ [l]} := by
  simp [MapState.addLayer, h]

theorem getSource?_snoc_ne {m : MapState} {id : String} (src : SourceDef)
    {id' : String} (h : id ≠ id') :
    (MapState.getSource? {m with sources := m.sources ++ [(id, src)]} id')
      = m.getSource? id' := by
  have hb : (id == id') = false := by simpa using h
  simp [MapState.getSource?, List.find?_append, List.find?, hb]

theorem getSource?_snoc_self {m : MapState} {id : String} (src : SourceDef)
    (h : m.getSource? id = none) :
    (MapState.getSource? {m with sources := m.sources ++ [(id, src)]} id)
      = some src := by
  have h' : m.sources.find? (fun p => p.1 == id) = none := by
    simpa [MapState.getSource?] using h
  simp [MapState.getSource?, List.find?_append, List.find?, h']

theorem getLayer?_snoc_ne {m : MapState} {l : LayerDef} {id' : String}
    (h : l.id ≠ id') :
    (MapState.getLayer? {m with layers := m.layers ++ [l]} id')
      = m.getLayer? id' := by
  have hb : (l.id == id') = false := by simpa using h
  simp [MapState.getLayer?, List.find?_append, List.find?, hb]

/-- `find?` by a key is unchanged by filtering out entries of other keys. -/
theorem find?_filter_of_imp {α} (p q : α → Bool) (l : List α)
    (h : ∀ a, p a = true → q a = true) :
    (l.filter q).find? p = l.find? p := by
  induction l with
  | nil => simp
  | cons a l ih =>
      by_cases hp : p a = true
      · simp [List.filter, h a hp, List.find?, hp, ih]
      · have hp' : p a = false := by simpa using hp
        by_cases hq : q a = true
        · simp [List.filter, hq, List.find?, hp', ih]
        · have hq' : q a = false := by simpa using hq
          simp [List.filter, hq', List.find?, hp', ih]

theorem getLayer?_removeLayerD_ne (m : MapState) {id id' : String}
    (h : id' ≠ id) :
    (m.removeLayerD id).getLayer? id' = m.getLayer? id' := by
  unfold MapState.removeLayerD MapState.getLayer?
  exact find?_filter_of_imp _ _ _ (fun l hl => by
    have : l.id = id' := by simpa using hl
    simp [this, h])

theorem getSource?_removeSourceD_ne (m : MapState) {id id' : String}
    (h : id' ≠ id) :
    (m.removeSourceD id).getSource? id' = m.getSource? id' := by
  unfold MapState.removeSourceD MapState.getSource?
  rw [find?_filter_of_imp _ _ _ (fun p hp => by
    have : p.1 = id' := by simpa using hp
    simp [this, h])]

/-- Dispatching to `executeTool` preserves the handler's final state. -/
theorem executeTool_state (t : MapboxMapTools) (name : String) (args : JVal) :
    (t.executeTool name args).2 = (t.rawDispatch name args).2 := by
  unfold MapboxMapTools.executeTool
  rcases h : t.rawDispatch name args with ⟨res, t'⟩
  cases res <;> simp

theorem rawDispatch_unknown (t : MapboxMapTools) (name : String) (args : JVal)
    (h : name ∉ knownToolNames) :
    t.rawDispatch name args = (.error ("Unknown tool: " ++ name), t) := by
  unfold MapboxMapTools.rawDispatch
  split <;> simp_all [knownToolNames]

/-! ## C1 -/

/-- C1: `executeTool` never propagates an exception: an unknown tool
name yields the error envelope naming it, with no state mutation; a
message thrown by a handler is converted into
`content [text ("Error: " ++ msg)], isError true` around the handler's
final state; a handler's envelope passes through unchanged. -/
theorem executeTool_catch_boundary (t : MapboxMapTools) (name : String) (args : JVal) :
    (name ∉ knownToolNames →
      t.executeTool name args = (mkErrEnv ("Unknown tool: " ++ name), t))
    ∧ (∀ msg t', t.rawDispatch name args = (.error msg, t') →
      t.executeTool name args = (mkErrEnv msg, t'))
    ∧ (∀ env t', t.rawDispatch name args = (.ok env, t') →
      t.executeTool name args = (env, t')) := by
  refine ⟨fun h => ?_, fun msg t' h => ?_, fun env t' h => ?_⟩
  · unfold MapboxMapTools.executeTool
    rw [rawDispatch_unknown t name args h]
  · unfold MapboxMapTools.executeTool
    rw [h]
  · unfold MapboxMapTools.executeTool
    rw [h]

/-- A concrete fresh dispatcher over an empty engine style, used by the
witnesses below. -/
def sampleTools : MapboxMapTools := {map := {}}

/-- The value `executeTool`'s catch boundary makes of a dispatch result. -/
def execWrap (r : Except String Envelope × MapboxMapTools) :
    Envelope × MapboxMapTools :=
  (match r.1 with | .ok env => env | .error msg => mkErrEnv msg, r.2)

theorem executeTool_eq (t : MapboxMapTools) (name : String) (args : JVal) :
    t.executeTool name args = execWrap (t.rawDispatch name args) := by
  unfold MapboxMapTools.executeTool
  rcases h : t.rawDispatch name args with ⟨res, t'⟩
  cases res <;> rfl

theorem rawDispatch_points (t : MapboxMapTools) (args : JVal) :
    t.rawDispatch "add_points_to_map" args = t.addPointsToMap args := rfl

theorem rawDispatch_route (t : MapboxMapTools) (args : JVal) :
    t.rawDispatch "add_route_to_map" args = t.addRouteToMap args := rfl

theorem rawDispatch_fit (t : MapboxMapTools) (args : JVal) :
    t.rawDispatch "fit_map_to_bounds" args = t.fitMapToBounds args := rfl

theorem rawDispatch_polygon (t : MapboxMapTools) (args : JVal) :
    t.rawDispatch "add_polygon_to_map" args = t.addPolygonToMap args := rfl

theorem rawDispatch_clear (t : MapboxMapTools) (args : JVal) :
    t.rawDispatch "clear_map_layers" args = t.clearMapLayers args := rfl

theorem rawDispatch_vector (t : MapboxMapTools) (args : JVal) :
    t.rawDispatch "add_vector_tileset_layer" args = t.addVectorTilesetLayer args := rfl

theorem rawDispatch_queryRendered (t : MapboxMapTools) (args : JVal) :
    t.rawDispatch "query_rendered_features" args = t.queryRenderedFeatures args := rfl

theorem rawDispatch_querySource (t : MapboxMapTools) (args : JVal) :
    t.rawDispatch "query_source_features" args = t.querySourceFeatures args := rfl

theorem find?_snoc_neg {α} (l : List α) (a : α) (p : α → Bool) (h : p a = false) :
    (l ++ [a]).find? p = l.find? p := by
  simp [List.find?_append, List.find?, h]

theorem find?_snoc_none {α} (l : List α) (a : α) (p : α → Bool)
    (hl : l.find? p = none) (h : p a = true) : (l ++ [a]).find? p = some a := by
  simp [List.find?_append, List.find?, hl, h]

/-- Distinct counter values give distinct handles, whatever the
requested names. -/
theorem handles_distinct (p₁ p₂ : String) (n₁ n₂ : Nat) (h : n₁ ≠ n₂) :
    p₁ ++ "-" ++ natStr n₁ ≠ p₂ ++ "-" ++ natStr n₂ :=
  fun he => h (handle_inj he)

theorem executeTool_catch_boundary_witness :
    ("nonexistent_tool" ∉ knownToolNames)
    ∧ sampleTools.executeTool "nonexistent_tool" (.obj [])
        = (mkErrEnv ("Unknown tool: " ++ "nonexistent_tool"), sampleTools) :=
  ⟨by decide,
   (executeTool_catch_boundary sampleTools "nonexistent_tool" (.obj [])).1 (by decide)⟩

/-! ## C2 -/

/-- The `add_points_to_map` argument object of the spec's test:
`{points: [], layerName: "cities"}`. -/
def citiesPointsArgs : JVal := .obj [("points", .arr []), ("layerName", .str "cities")]

/-- Full characterization of one `addPointsToMap` call on
`citiesPointsArgs`, for a fresh derived identifier. -/
theorem addPoints_cities_step (t : MapboxMapTools)
    (hs : t.map.getSource? ("cities-" ++ natStr (t.layerCounter + 1)) = none)
    (hl : t.map.getLayer? ("cities-" ++ natStr (t.layerCounter + 1)) = none) :
    t.addPointsToMap citiesPointsArgs =
      (.ok {content := [⟨"text", "Added " ++ natStr 0 ++ " points to map layer \""
              ++ ("cities-" ++ natStr (t.layerCounter + 1)) ++ "\""⟩],
            isError := false,
            layerId := some ("cities-" ++ natStr (t.layerCounter + 1))},
       {t with
         layerCounter := t.layerCounter + 1,
         map := {t.map with
           sources := t.map.sources ++ [("cities-" ++ natStr (t.layerCounter + 1),
             {stype := "geojson",
              data := .obj [("type", .str "FeatureCollection"), ("features", .arr [])]})],
           layers := t.map.layers ++ [{
             id := "cities-" ++ natStr (t.layerCounter + 1),
             ltype := JVal.str "circle",
             source := some ("cities-" ++ natStr (t.layerCounter + 1)),
             paint := .obj [("circle-radius", .num 8),
               ("circle-color", .arr [.str "get", .str "color"]),
               ("circle-stroke-width", .num 2),
               ("circle-stroke-color", .str "#ffffff")]}],
           listeners := t.map.listeners
             ++ (if t.options.enablePopups
                 then [("click", "cities-" ++ natStr (t.layerCounter + 1))] else [])
             ++ (if t.options.enableHoverEffects then
                   [("mouseenter", "cities-" ++ natStr (t.layerCounter + 1)),
                    ("mouseleave", "cities-" ++ natStr (t.layerCounter + 1))]
                 else [])}}) := by
  have hs' : t.map.sources.find?
      (fun p => p.1 == ("cities-" ++ natStr (t.layerCounter + 1))) = none := by
    simpa [MapState.getSource?] using hs
  have hl' : t.map.layers.find?
      (fun l => l.id == ("cities-" ++ natStr (t.layerCounter + 1))) = none := by
    simpa [MapState.getLayer?] using hl
  simp [MapboxMapTools.addPointsToMap, citiesPointsArgs, jsGetProp, JVal.getD,
    List.find?, jsDefault, JVal.toStr, List.enum, List.mapM, List.mapM.loop,
    MapState.addSource, MapState.addLayer, MapState.getSource?, MapState.getLayer?,
    pure, Except.pure, hs', hl']

/-- C2: two `add_points_to_map` invocations with the same requested
name `"cities"` succeed with handles `cities-(c+1)` and `cities-(c+2)`
(strictly increasing numeric suffixes), the two handles are distinct,
the counter ends two ticks higher and never resets; moreover any two
handles minted at distinct counter values are distinct, whatever the
requested names. -/
theorem addPoints_same_name_distinct_handles (t : MapboxMapTools)
    (h1s : t.map.getSource? ("cities-" ++ natStr (t.layerCounter + 1)) = none)
    (h1l : t.map.getLayer? ("cities-" ++ natStr (t.layerCounter + 1)) = none)
    (h2s : t.map.getSource? ("cities-" ++ natStr (t.layerCounter + 2)) = none)
    (h2l : t.map.getLayer? ("cities-" ++ natStr (t.layerCounter + 2)) = none)
    (r1 r2 : Envelope × MapboxMapTools)
    (hr1 : r1 = t.executeTool "add_points_to_map" citiesPointsArgs)
    (hr2 : r2 = r1.2.executeTool "add_points_to_map" citiesPointsArgs) :
    r1.1.isError = false ∧ r2.1.isError = false
    ∧ r1.1.layerId = some ("cities-" ++ natStr (t.layerCounter + 1))
    ∧ r2.1.layerId = some ("cities-" ++ natStr (t.layerCounter + 2))
    ∧ r1.1.layerId ≠ r2.1.layerId
    ∧ t.layerCounter + 1 < t.layerCounter + 2
    ∧ r1.2.layerCounter = t.layerCounter + 1
    ∧ r2.2.layerCounter = t.layerCounter + 2
    ∧ (∀ (p₁ p₂ : String) (n₁ n₂ : Nat), n₁ ≠ n₂ →
        p₁ ++ "-" ++ natStr n₁ ≠ p₂ ++ "-" ++ natStr n₂) := by
  have hne : ("cities-" ++ natStr (t.layerCounter + 1))
      ≠ ("cities-" ++ natStr (t.layerCounter + 2)) := by
    have h := handles_distinct "cities" "cities"
      (t.layerCounter + 1) (t.layerCounter + 2) (by omega)
    simpa using h
  subst hr2
  subst hr1
  rw [executeTool_eq]
  dsimp only [MapboxMapTools.rawDispatch]
  rw [addPoints_cities_step t h1s h1l]
  dsimp only [execWrap]
  rw [executeTool_eq]
  dsimp only [MapboxMapTools.rawDispatch]
  rw [addPoints_cities_step _ ?hs2 ?hl2]
  case hs2 =>
    simp only [MapState.getSource?]
    rw [find?_snoc_neg]
    · simpa [MapState.getSource?] using h2s
    · simpa using hne
  case hl2 =>
    simp only [MapState.getLayer?]
    rw [find?_snoc_neg]
    · simpa [MapState.getLayer?] using h2l
    · simpa using hne
  dsimp only [execWrap]
  refine ⟨rfl, rfl, rfl, rfl, ?_, by omega, rfl, rfl, fun p₁ p₂ n₁ n₂ h => handles_distinct p₁ p₂ n₁ n₂ h⟩
  simpa using hne

theorem addPoints_same_name_distinct_handles_witness :
    (sampleTools.executeTool "add_points_to_map" citiesPointsArgs).1.layerId
        = some ("cities-" ++ natStr (sampleTools.layerCounter + 1))
    ∧ ((sampleTools.executeTool "add_points_to_map" citiesPointsArgs).2.executeTool
          "add_points_to_map" citiesPointsArgs).1.layerId
        = some ("cities-" ++ natStr (sampleTools.layerCounter + 2))
    ∧ (sampleTools.executeTool "add_points_to_map" citiesPointsArgs).1.layerId
        ≠ ((sampleTools.executeTool "add_points_to_map" citiesPointsArgs).2.executeTool
          "add_points_to_map" citiesPointsArgs).1.layerId
    ∧ ("cities-" ++ natStr (sampleTools.layerCounter + 1) = "cities-1")
    ∧ ("cities-" ++ natStr (sampleTools.layerCounter + 2) = "cities-2") := by
  have h := addPoints_same_name_distinct_handles sampleTools rfl rfl rfl rfl
      (sampleTools.executeTool "add_points_to_map" citiesPointsArgs)
      ((sampleTools.executeTool "add_points_to_map" citiesPointsArgs).2.executeTool
        "add_points_to_map" citiesPointsArgs) rfl rfl
  exact ⟨h.2.2.1, h.2.2.2.1, h.2.2.2.2.1, by decide, by decide⟩

/-! ## C10 -/

/-- C10: `add_route_to_map` performs no validation of the coordinate
list: for EVERY coordinates array `cs` — the empty array and a single
pair included — the handler advances the counter by one tick, adds the
geojson LineString source and the line layer to the engine, and returns
a success envelope with the derived `layerId`; the catalog's
`minItems: 2` is never enforced. -/
theorem route_no_min_coordinate_validation (t : MapboxMapTools) (cs : List JVal)
    (hs : t.map.getSource? ("route-layer-" ++ natStr (t.layerCounter + 1)) = none)
    (hl : t.map.getLayer? ("route-layer-" ++ natStr (t.layerCounter + 1)) = none) :
    t.executeTool "add_route_to_map" (.obj [("coordinates", .arr cs)]) =
      ({content := [⟨"text", "Added route with " ++ ratStr cs.length
              ++ " points to map layer \""
              ++ ("route-layer-" ++ natStr (t.layerCounter + 1)) ++ "\""⟩],
        isError := false,
        layerId := some ("route-layer-" ++ natStr (t.layerCounter + 1))},
       {t with
         layerCounter := t.layerCounter + 1,
         map := {t.map with
           sources := t.map.sources ++ [("route-layer-" ++ natStr (t.layerCounter + 1),
             {stype := "geojson",
              data := .obj [("type", .str "Feature"),
                ("geometry", .obj [("type", .str "LineString"),
                  ("coordinates", .arr cs)])]})],
           layers := t.map.layers ++ [{
             id := "route-layer-" ++ natStr (t.layerCounter + 1),
             ltype := JVal.str "line",
             source := some ("route-layer-" ++ natStr (t.layerCounter + 1)),
             paint := .obj [("line-color", .str t.options.defaultRouteColor),
               ("line-width", .num t.options.defaultRouteWidth),
               ("line-opacity", .num 0.8)]}]}}) := by
  have hs' : t.map.sources.find?
      (fun p => p.1 == ("route-layer-" ++ natStr (t.layerCounter + 1))) = none := by
    simpa [MapState.getSource?] using hs
  have hl' : t.map.layers.find?
      (fun l => l.id == ("route-layer-" ++ natStr (t.layerCounter + 1))) = none := by
    simpa [MapState.getLayer?] using hl
  rw [executeTool_eq]
  dsimp only [MapboxMapTools.rawDispatch]
  simp [MapboxMapTools.addRouteToMap, jsGetProp, JVal.getD, List.find?, jsDefault,
    JVal.toStr, jsLength, MapState.addSource, MapState.addLayer,
    MapState.getSource?, MapState.getLayer?, hs', hl', execWrap]

theorem route_no_min_coordinate_validation_witness :
    ([] : List JVal).length < routeSchemaCoordinatesMinItems
    ∧ (sampleTools.executeTool "add_route_to_map"
        (.obj [("coordinates", .arr [])])).1.isError = false
    ∧ (sampleTools.executeTool "add_route_to_map"
        (.obj [("coordinates", .arr [])])).1.layerId
      = some ("route-layer-" ++ natStr (sampleTools.layerCounter + 1))
    ∧ (sampleTools.executeTool "add_route_to_map"
        (.obj [("coordinates", .arr [])])).2.layerCounter
      = sampleTools.layerCounter + 1 := by
  have h := route_no_min_coordinate_validation sampleTools [] rfl rfl
  refine ⟨by decide, ?_, ?_, ?_⟩ <;> rw [h]

/-! ## C7 -/

theorem jsDefault_ne_undef {v d : JVal} (h : v ≠ .undef) : jsDefault v d = v := by
  cases v <;> simp_all [jsDefault]

/-- C7: `fit_map_to_bounds` with an empty coordinates array returns an
error envelope and issues no camera mutation (the state is untouched);
with any non-empty array it extends the engine bounds with every
coordinate (starting from `coordinates[0]`) and issues exactly one
`fitBounds` camera call with the default pixel padding 50, or with the
supplied padding when one is given. -/
theorem fitBounds_empty_error_nonempty_fits (t : MapboxMapTools) :
    (t.executeTool "fit_map_to_bounds" (.obj [("coordinates", .arr [])])
        = (mkErrEnv "No coordinates provided", t))
    ∧ (∀ (c : JVal) (cs : List JVal),
        t.executeTool "fit_map_to_bounds" (.obj [("coordinates", .arr (c :: cs))])
          = (textEnv ("Map view adjusted to fit " ++ ratStr (c :: cs).length
                ++ " coordinates"),
             {t with map := {t.map with camera := t.map.camera
               ++ [CamEvent.fitBounds ([c, c] ++ (c :: cs)) (.num 50)]}})
        ∧ (∀ x ∈ c :: cs, x ∈ [c, c] ++ (c :: cs)))
    ∧ (∀ (c : JVal) (cs : List JVal) (padVal : JVal), padVal ≠ .undef →
        (t.executeTool "fit_map_to_bounds"
            (.obj [("coordinates", .arr (c :: cs)), ("padding", padVal)])).2
          = {t with map := {t.map with camera := t.map.camera
              ++ [CamEvent.fitBounds ([c, c] ++ (c :: cs)) padVal]}}) := by
  refine ⟨?_, fun c cs => ⟨?_, fun x hx => by simp [hx]⟩, fun c cs padVal hpad => ?_⟩
  · rw [executeTool_eq]
    dsimp only [MapboxMapTools.rawDispatch]
    simp [MapboxMapTools.fitMapToBounds, jsGetProp, JVal.getD, List.find?, jsDefault,
      jsLength, jsStrictEqNum, execWrap, mkErrEnv]
  · rw [executeTool_eq]
    dsimp only [MapboxMapTools.rawDispatch]
    have hlen : ((cs.length : Rat) + 1) ≠ 0 := by positivity
    simp [MapboxMapTools.fitMapToBounds, jsGetProp, JVal.getD, List.find?, jsDefault,
      jsLength, jsStrictEqNum, jsIndex, execWrap, textEnv, hlen, JVal.toStr]
  · rw [executeTool_eq]
    dsimp only [MapboxMapTools.rawDispatch]
    have hlen : ((cs.length : Rat) + 1) ≠ 0 := by positivity
    simp [MapboxMapTools.fitMapToBounds, jsGetProp, JVal.getD, List.find?,
      jsDefault_ne_undef hpad, jsLength, jsStrictEqNum, jsIndex, execWrap, hlen]

theorem fitBounds_empty_error_nonempty_fits_witness :
    (sampleTools.executeTool "fit_map_to_bounds" (.obj [("coordinates", .arr [])])
        = (mkErrEnv "No coordinates provided", sampleTools))
    ∧ (sampleTools.executeTool "fit_map_to_bounds"
        (.obj [("coordinates", .arr [.arr [.num 1, .num 2]])])).2.map.camera
      = [CamEvent.fitBounds [.arr [.num 1, .num 2], .arr [.num 1, .num 2],
          .arr [.num 1, .num 2]] (.num 50)] := by
  have h := fitBounds_empty_error_nonempty_fits sampleTools
  refine ⟨h.1, ?_⟩
  rw [(h.2.1 (.arr [.num 1, .num 2]) []).1]
  rfl

/-! ## C6 -/

/-- The two-key argument object `{point: 0, bbox: [0,0,1,1]}`: both
`point` and `bbox` are present, but `point` is falsy. -/
def falsyPointArgs : JVal :=
  .obj [("point", .num 0), ("bbox", .arr [.num 0, .num 0, .num 1, .num 1])]

/-- C6 counterexample: with `point` present but falsy (`point: 0`) and
`bbox` present, `query_rendered_features` does NOT return the
mutually-exclusive error — it succeeds and calls the engine's
`queryRenderedFeatures` (the query log grows) — so the claim is false
for args in which both keys are merely PRESENT. -/
theorem queryRendered_present_falsy_point_counterexample :
    (falsyPointArgs.getD "point" ≠ .undef)
    ∧ (falsyPointArgs.getD "bbox" ≠ .undef)
    ∧ (sampleTools.executeTool "query_rendered_features" falsyPointArgs).1.isError
        = false
    ∧ (sampleTools.executeTool "query_rendered_features"
          falsyPointArgs).2.map.renderedQueryLog.length
        = sampleTools.map.renderedQueryLog.length + 1 :=
  ⟨fun h => JVal.noConfusion h, fun h => JVal.noConfusion h, rfl, rfl⟩

/-- C6 amended: for every args object in which `point` and `bbox` are
both TRUTHY (as the schema's object/array values always are), the
handler throws the mutually-exclusive error — surfaced as an error
envelope — before building any query, and the engine's
`queryRenderedFeatures` is never called (the state, including the
engine query log, is unchanged). -/
theorem queryRendered_truthy_point_bbox_error (t : MapboxMapTools) (args : JVal)
    (hp : (args.getD "point").truthy = true)
    (hb : (args.getD "bbox").truthy = true) :
    t.executeTool "query_rendered_features" args
      = (mkErrEnv "Cannot specify both point and bbox parameters. Use one or the other.", t)
    ∧ (t.executeTool "query_rendered_features" args).2.map.renderedQueryLog
      = t.map.renderedQueryLog := by
  have he : t.executeTool "query_rendered_features" args
      = (mkErrEnv "Cannot specify both point and bbox parameters. Use one or the other.", t) := by
    rw [executeTool_eq]
    dsimp only [MapboxMapTools.rawDispatch]
    cases args with
    | obj fs =>
        simp [MapboxMapTools.queryRenderedFeatures, jsGetProp, hp, hb, execWrap]
    | null => simp [JVal.getD, JVal.truthy] at hp
    | undef => simp [JVal.getD, JVal.truthy] at hp
    | bool b => simp [JVal.getD, JVal.truthy] at hp
    | num q => simp [JVal.getD, JVal.truthy] at hp
    | str s => simp [JVal.getD, JVal.truthy] at hp
    | arr xs => simp [JVal.getD, JVal.truthy] at hp
  exact ⟨he, by rw [he]⟩

theorem queryRendered_truthy_point_bbox_error_witness :
    ((JVal.obj [("point", .obj [("x", .num 0), ("y", .num 0)]),
        ("bbox", .arr [.num 0, .num 0, .num 1, .num 1])]).getD "point").truthy = true
    ∧ sampleTools.executeTool "query_rendered_features"
        (.obj [("point", .obj [("x", .num 0), ("y", .num 0)]),
          ("bbox", .arr [.num 0, .num 0, .num 1, .num 1])])
      = (mkErrEnv "Cannot specify both point and bbox parameters. Use one or the other.",
         sampleTools) :=
  ⟨rfl,
   (queryRendered_truthy_point_bbox_error sampleTools
      (.obj [("point", .obj [("x", .num 0), ("y", .num 0)]),
        ("bbox", .arr [.num 0, .num 0, .num 1, .num 1])]) rfl rfl).1⟩

/-! ## C5 -/

/-- A well-formed `add_vector_tileset_layer` argument object. -/
def vecArgs (url sl lt L : String) : JVal :=
  .obj [("tilesetUrl", .str url), ("sourceLayer", .str sl),
    ("layerType", .str lt), ("layerName", .str L)]

/-- The layer config `addVectorTilesetLayer` builds for `vecArgs`. -/
def vecLayerCfg (url sl lt L : String) (k : Nat) : LayerDef :=
  {id := L ++ "-" ++ natStr k, ltype := .str lt,
   source := some (generateSourceId url), sourceLayer := some (.str sl),
   paint := jsMerge (defaultPaintFor (.str lt)) (.obj [])}

/-- The vector source config derived from the URL. -/
def vecSourceCfg (url : String) : SourceDef :=
  if jsStartsWith url "mapbox://" then {stype := "vector", url := some url}
  else {stype := "vector", tiles := some [url]}

theorem addVector_step_new (t : MapboxMapTools) (url sl lt L : String)
    (hv : jsValidTilesetUrl url = true)
    (hsrc : t.map.getSource? (generateSourceId url) = none)
    (hl : t.map.getLayer? (L ++ "-" ++ natStr (t.layerCounter + 1)) = none) :
    t.addVectorTilesetLayer (vecArgs url sl lt L) =
      (.ok {content := [⟨"text", "Added vector tileset layer \""
              ++ (L ++ "-" ++ natStr (t.layerCounter + 1))
              ++ "\" from source \"" ++ generateSourceId url
              ++ "\" (source layer: \"" ++ sl ++ "\")"⟩],
            isError := false,
            layerId := some (L ++ "-" ++ natStr (t.layerCounter + 1)),
            sourceId := some (generateSourceId url)},
       {t with
         layerCounter := t.layerCounter + 1,
         map := {t.map with
           sources := t.map.sources ++ [(generateSourceId url, vecSourceCfg url)],
           layers := t.map.layers
             ++ [vecLayerCfg url sl lt L (t.layerCounter + 1)]}}) := by
  have hsrc' : t.map.sources.find? (fun p => p.1 == generateSourceId url) = none := by
    simpa [MapState.getSource?] using hsrc
  have hl' : t.map.layers.find?
      (fun l => l.id == (L ++ "-" ++ natStr (t.layerCounter + 1))) = none := by
    simpa [MapState.getLayer?] using hl
  simp [MapboxMapTools.addVectorTilesetLayer, vecArgs, jsGetProp, JVal.getD,
    List.find?, jsDefault, JVal.toStr, hv, jsKeys, JVal.truthy,
    MapState.addLayer, MapState.getSource?, MapState.getLayer?, hsrc', hl',
    vecLayerCfg, vecSourceCfg]

theorem addVector_step_existing (t : MapboxMapTools) (url sl lt L : String)
    (hv : jsValidTilesetUrl url = true)
    (hsrc : (t.map.getSource? (generateSourceId url)).isSome = true)
    (hl : t.map.getLayer? (L ++ "-" ++ natStr (t.layerCounter + 1)) = none) :
    t.addVectorTilesetLayer (vecArgs url sl lt L) =
      (.ok {content := [⟨"text", "Added vector tileset layer \""
              ++ (L ++ "-" ++ natStr (t.layerCounter + 1))
              ++ "\" from source \"" ++ generateSourceId url
              ++ "\" (source layer: \"" ++ sl ++ "\")"⟩],
            isError := false,
            layerId := some (L ++ "-" ++ natStr (t.layerCounter + 1)),
            sourceId := some (generateSourceId url)},
       {t with
         layerCounter := t.layerCounter + 1,
         map := {t.map with
           layers := t.map.layers
             ++ [vecLayerCfg url sl lt L (t.layerCounter + 1)]}}) := by
  have hsrc' : (t.map.sources.find? (fun p => p.1 == generateSourceId url)).isSome
      = true := by
    simpa [MapState.getSource?] using hsrc
  have hl' : t.map.layers.find?
      (fun l => l.id == (L ++ "-" ++ natStr (t.layerCounter + 1))) = none := by
    simpa [MapState.getLayer?] using hl
  simp [MapboxMapTools.addVectorTilesetLayer, vecArgs, jsGetProp, JVal.getD,
    List.find?, jsDefault, JVal.toStr, hv, jsKeys, JVal.truthy,
    MapState.addLayer, MapState.getSource?, MapState.getLayer?, hsrc', hl',
    vecLayerCfg]

/-- C5: `addVectorTilesetLayer` derives the sanitized deterministic
sourceId (scheme prefix stripped, characters outside
letters/digits/`-`/`_`/`.` replaced by `-`, then `"-vector-source"`
appended); calling it twice with the same `tilesetUrl` adds the vector
source only once (the final source table holds exactly one entry for
that id), returns the same `sourceId` both times, and mints two
distinct `layerId`s. -/
theorem vector_tileset_source_reuse (t : MapboxMapTools) (url sl lt L₁ L₂ : String)
    (hv : jsValidTilesetUrl url = true)
    (hsrc : t.map.getSource? (generateSourceId url) = none)
    (hl1 : t.map.getLayer? (L₁ ++ "-" ++ natStr (t.layerCounter + 1)) = none)
    (hl2 : t.map.getLayer? (L₂ ++ "-" ++ natStr (t.layerCounter + 2)) = none)
    (r1 r2 : Envelope × MapboxMapTools)
    (hr1 : r1 = t.executeTool "add_vector_tileset_layer" (vecArgs url sl lt L₁))
    (hr2 : r2 = r1.2.executeTool "add_vector_tileset_layer" (vecArgs url sl lt L₂)) :
    r1.1.isError = false ∧ r2.1.isError = false
    ∧ r1.1.sourceId = some (generateSourceId url)
    ∧ r2.1.sourceId = some (generateSourceId url)
    ∧ r1.1.layerId = some (L₁ ++ "-" ++ natStr (t.layerCounter + 1))
    ∧ r2.1.layerId = some (L₂ ++ "-" ++ natStr (t.layerCounter + 2))
    ∧ r1.1.layerId ≠ r2.1.layerId
    ∧ r2.2.map.sources.countP (fun p => p.1 == generateSourceId url) = 1
    ∧ generateSourceId url
        = (⟨(stripSchemePrefix url).data.map sanitizeChar⟩ : String) ++ "-vector-source" := by
  have hne : (L₁ ++ "-" ++ natStr (t.layerCounter + 1))
      ≠ (L₂ ++ "-" ++ natStr (t.layerCounter + 2)) :=
    handles_distinct L₁ L₂ (t.layerCounter + 1) (t.layerCounter + 2) (by omega)
  have hcount : t.map.sources.countP (fun p => p.1 == generateSourceId url) = 0 := by
    have h0 : t.map.sources.find? (fun p => p.1 == generateSourceId url) = none := by
      simpa [MapState.getSource?] using hsrc
    rw [List.find?_eq_none] at h0
    rw [List.countP_eq_zero]
    exact h0
  subst hr2
  subst hr1
  rw [executeTool_eq, rawDispatch_vector,
    addVector_step_new t url sl lt L₁ hv hsrc hl1]
  dsimp only [execWrap]
  rw [executeTool_eq, rawDispatch_vector,
    addVector_step_existing _ url sl lt L₂ hv ?hsrcT ?hlT]
  case hsrcT =>
    simp only [MapState.getSource?]
    rw [find?_snoc_none]
    · simp
    · simpa [MapState.getSource?] using hsrc
    · simp [vecSourceCfg]
  case hlT =>
    simp only [MapState.getLayer?]
    rw [find?_snoc_neg]
    · simpa [MapState.getLayer?] using hl2
    · simp [vecLayerCfg]
      simpa using hne
  dsimp only [execWrap]
  refine ⟨rfl, rfl, rfl, rfl, rfl, rfl, ?_, ?_, rfl⟩
  · simpa using hne
  · rw [List.countP_append, hcount]
    simp

theorem vector_tileset_source_reuse_witness :
    (sampleTools.executeTool "add_vector_tileset_layer"
        (vecArgs "mapbox://mapbox.traffic-v1" "traffic" "line" "a")).1.sourceId
      = some (generateSourceId "mapbox://mapbox.traffic-v1")
    ∧ ((sampleTools.executeTool "add_vector_tileset_layer"
        (vecArgs "mapbox://mapbox.traffic-v1" "traffic" "line" "a")).2.executeTool
        "add_vector_tileset_layer"
        (vecArgs "mapbox://mapbox.traffic-v1" "traffic" "line" "b")).2.map.sources.countP
        (fun p => p.1 == generateSourceId "mapbox://mapbox.traffic-v1") = 1
    ∧ generateSourceId "mapbox://mapbox.traffic-v1"
      = "mapbox.traffic-v1-vector-source" := by
  have h := vector_tileset_source_reuse sampleTools "mapbox://mapbox.traffic-v1"
    "traffic" "line" "a" "b" rfl rfl rfl rfl
    (sampleTools.executeTool "add_vector_tileset_layer"
      (vecArgs "mapbox://mapbox.traffic-v1" "traffic" "line" "a"))
    ((sampleTools.executeTool "add_vector_tileset_layer"
      (vecArgs "mapbox://mapbox.traffic-v1" "traffic" "line" "a")).2.executeTool
      "add_vector_tileset_layer"
      (vecArgs "mapbox://mapbox.traffic-v1" "traffic" "line" "b")) rfl rfl
  exact ⟨h.2.2.1, h.2.2.2.2.2.2.2.1, by decide⟩

/-! ## C8 -/

theorem string_append_right_ne (a : String) {s₁ s₂ : String} (h : s₁ ≠ s₂) :
    a ++ s₁ ≠ a ++ s₂ := by
  intro he
  apply h
  have hd := congrArg String.data he
  simp only [String.data_append] at hd
  exact String.ext (List.append_cancel_left hd)

theorem string_ne_append_of_ne_nil (a : String) {s : String} (h : s.data ≠ []) :
    a ≠ a ++ s := by
  intro he
  have hlen := congrArg (fun x => x.data.length) he
  simp only [String.data_append, List.length_append] at hlen
  exact h (List.length_eq_zero.mp (by omega))

/-- The geojson source `addPolygonToMap` stores for coordinates `coords`. -/
def polySourceCfg (coords : JVal) : SourceDef :=
  {stype := "geojson",
   data := .obj [("type", .str "Feature"),
     ("geometry", .obj [("type", .str "Polygon"), ("coordinates", coords)])]}

/-- The fill layer `addPolygonToMap` adds (id `base ++ "-fill"`). -/
def polyFillCfg (opts : ToolOptions) (base : String) : LayerDef :=
  {id := base ++ "-fill", ltype := .str "fill", source := some base,
   paint := .obj [("fill-color", .str opts.defaultPolygonFillColor),
     ("fill-opacity", .num opts.defaultPolygonFillOpacity)]}

/-- The stroke layer `addPolygonToMap` adds (id `base ++ "-stroke"`). -/
def polyStrokeCfg (opts : ToolOptions) (base : String) : LayerDef :=
  {id := base ++ "-stroke", ltype := .str "line", source := some base,
   paint := .obj [("line-color", .str opts.defaultPolygonStrokeColor),
     ("line-width", .num opts.defaultPolygonStrokeWidth)]}

theorem addPolygon_step (t : MapboxMapTools) (coords : JVal)
    (hs : t.map.getSource? ("polygon-layer-" ++ natStr (t.layerCounter + 1)) = none)
    (hf : t.map.getLayer?
      ("polygon-layer-" ++ natStr (t.layerCounter + 1) ++ "-fill") = none)
    (hk : t.map.getLayer?
      ("polygon-layer-" ++ natStr (t.layerCounter + 1) ++ "-stroke") = none) :
    t.addPolygonToMap (.obj [("coordinates", coords)]) =
      (.ok {content := [⟨"text", "Added polygon to map layer \""
              ++ ("polygon-layer-" ++ natStr (t.layerCounter + 1)) ++ "\""⟩],
            isError := false,
            layerId := some ("polygon-layer-" ++ natStr (t.layerCounter + 1))},
       {t with
         layerCounter := t.layerCounter + 1,
         map := {t.map with
           sources := t.map.sources
             ++ [("polygon-layer-" ++ natStr (t.layerCounter + 1),
                 polySourceCfg coords)],
           layers := t.map.layers
             ++ [polyFillCfg t.options ("polygon-layer-" ++ natStr (t.layerCounter + 1)),
                 polyStrokeCfg t.options
                   ("polygon-layer-" ++ natStr (t.layerCounter + 1))]}}) := by
  have hs' : t.map.sources.find?
      (fun p => p.1 == ("polygon-layer-" ++ natStr (t.layerCounter + 1))) = none := by
    simpa [MapState.getSource?] using hs
  have hf' : t.map.layers.find?
      (fun l => l.id == ("polygon-layer-" ++ natStr (t.layerCounter + 1) ++ "-fill"))
      = none := by
    simpa [MapState.getLayer?] using hf
  have hk' : t.map.layers.find?
      (fun l => l.id == ("polygon-layer-" ++ natStr (t.layerCounter + 1) ++ "-stroke"))
      = none := by
    simpa [MapState.getLayer?] using hk
  have hkne : ("polygon-layer-" ++ natStr (t.layerCounter + 1) ++ "-fill")
      ≠ ("polygon-layer-" ++ natStr (t.layerCounter + 1) ++ "-stroke") :=
    string_append_right_ne _ (by decide)
  have hkneb : (("polygon-layer-" ++ natStr (t.layerCounter + 1) ++ "-fill")
      == ("polygon-layer-" ++ natStr (t.layerCounter + 1) ++ "-stroke")) = false := by
    simpa using hkne
  have hsex : ¬ ∃ x ∈ t.map.sources,
      x.1 = ("polygon-layer-" ++ natStr (t.layerCounter + 1)) := by
    rintro ⟨x, hx, he⟩
    have := List.find?_eq_none.mp hs' x hx
    simp [he] at this
  have hfex : ¬ ∃ x ∈ t.map.layers,
      x.id = ("polygon-layer-" ++ natStr (t.layerCounter + 1) ++ "-fill") := by
    rintro ⟨x, hx, he⟩
    have := List.find?_eq_none.mp hf' x hx
    simp [he] at this
  have hkex : ¬ ∃ x ∈ t.map.layers,
      x.id = ("polygon-layer-" ++ natStr (t.layerCounter + 1) ++ "-stroke") := by
    rintro ⟨x, hx, he⟩
    have := List.find?_eq_none.mp hk' x hx
    simp [he] at this
  simp [MapboxMapTools.addPolygonToMap, jsGetProp, JVal.getD, List.find?, jsDefault,
    JVal.toStr, MapState.addSource, MapState.addLayer, MapState.getSource?,
    MapState.getLayer?, hs', hf', hk', hkneb, hsex, hfex, hkex,
    polySourceCfg, polyFillCfg, polyStrokeCfg]

/-- C8: adding a polygon and then querying its source by the returned
identifier (geometry included by default) returns a FeatureCollection
whose single feature's geometry carries exactly the original input
coordinates. -/
theorem polygon_roundtrip (t : MapboxMapTools) (coords : JVal)
    (hs : t.map.getSource? ("polygon-layer-" ++ natStr (t.layerCounter + 1)) = none)
    (hf : t.map.getLayer?
      ("polygon-layer-" ++ natStr (t.layerCounter + 1) ++ "-fill") = none)
    (hk : t.map.getLayer?
      ("polygon-layer-" ++ natStr (t.layerCounter + 1) ++ "-stroke") = none)
    (r1 r2 : Envelope × MapboxMapTools)
    (hr1 : r1 = t.executeTool "add_polygon_to_map" (.obj [("coordinates", coords)]))
    (hr2 : r2 = r1.2.executeTool "query_source_features"
      (.obj [("sourceId", .str ("polygon-layer-" ++ natStr (t.layerCounter + 1)))])) :
    r1.1.isError = false
    ∧ r1.1.layerId = some ("polygon-layer-" ++ natStr (t.layerCounter + 1))
    ∧ r2.1.isError = false
    ∧ r2.1.data = some (.obj [("type", .str "FeatureCollection"),
        ("features", .arr [.obj [("type", .str "Feature"),
          ("geometry", .obj [("type", .str "Polygon"),
            ("coordinates", coords)])]])]) := by
  subst hr2
  subst hr1
  rw [executeTool_eq, rawDispatch_polygon, addPolygon_step t coords hs hf hk]
  dsimp only [execWrap]
  rw [executeTool_eq, rawDispatch_querySource]
  have hs' : t.map.sources.find?
      (fun p => p.1 == ("polygon-layer-" ++ natStr (t.layerCounter + 1))) = none := by
    simpa [MapState.getSource?] using hs
  simp [MapboxMapTools.querySourceFeatures, jsGetProp, JVal.getD, List.find?,
    jsDefault, JVal.toStr, JVal.truthy, MapState.getSource?, MapState.querySourceF,
    hs', polySourceCfg, geoJSONFeatures, jsSlice0, ratTrunc, execWrap]
  have hfl : Rat.floor 1000 = 1000 := by decide
  rw [hfl]
  norm_num

theorem polygon_roundtrip_witness :
    (sampleTools.executeTool "add_polygon_to_map"
      (.obj [("coordinates",
        .arr [.arr [.arr [.num 0, .num 0], .arr [.num 1, .num 0],
          .arr [.num 0, .num 0]]])])).1.layerId
      = some ("polygon-layer-" ++ natStr (sampleTools.layerCounter + 1))
    ∧ ((sampleTools.executeTool "add_polygon_to_map"
        (.obj [("coordinates",
          .arr [.arr [.arr [.num 0, .num 0], .arr [.num 1, .num 0],
            .arr [.num 0, .num 0]]])])).2.executeTool "query_source_features"
        (.obj [("sourceId",
          .str ("polygon-layer-" ++ natStr (sampleTools.layerCounter + 1)))])).1.data
      = some (.obj [("type", .str "FeatureCollection"),
          ("features", .arr [.obj [("type", .str "Feature"),
            ("geometry", .obj [("type", .str "Polygon"),
              ("coordinates", .arr [.arr [.arr [.num 0, .num 0],
                .arr [.num 1, .num 0], .arr [.num 0, .num 0]]])])]])]) := by
  have h := polygon_roundtrip sampleTools
    (.arr [.arr [.arr [.num 0, .num 0], .arr [.num 1, .num 0], .arr [.num 0, .num 0]]])
    rfl rfl rfl
    (sampleTools.executeTool "add_polygon_to_map"
      (.obj [("coordinates",
        .arr [.arr [.arr [.num 0, .num 0], .arr [.num 1, .num 0],
          .arr [.num 0, .num 0]]])]))
    ((sampleTools.executeTool "add_polygon_to_map"
      (.obj [("coordinates",
        .arr [.arr [.arr [.num 0, .num 0], .arr [.num 1, .num 0],
          .arr [.num 0, .num 0]]])])).2.executeTool "query_source_features"
      (.obj [("sourceId",
        .str ("polygon-layer-" ++ natStr (sampleTools.layerCounter + 1)))])) rfl rfl
  exact ⟨h.2.1, h.2.2.2⟩

/-! ## Loop characterizations for `clearMapLayers` -/

theorem filter_bne_eq_self {α} (key : α → String) (n : String) (l : List α)
    (h : l.find? (fun x => key x == n) = none) :
    l.filter (fun x => key x != n) = l := by
  rw [List.filter_eq_self]
  intro a ha
  have := List.find?_eq_none.mp h a ha
  simpa using this

theorem filter_filter_mem_cons {α} (key : α → String) (n : String)
    (rest : List String) (l : List α) :
    (l.filter (fun x => key x != n)).filter (fun x => !decide (key x ∈ rest))
      = l.filter (fun x => !decide (key x ∈ n :: rest)) := by
  rw [List.filter_filter]
  apply List.filter_congr
  intro a _
  by_cases he : key a = n <;> simp [he, List.mem_cons]

theorem filter_mem_cons_of_absent {α} (key : α → String) (n : String)
    (rest : List String) (l : List α)
    (h : l.find? (fun x => key x == n) = none) :
    l.filter (fun x => !decide (key x ∈ rest))
      = l.filter (fun x => !decide (key x ∈ n :: rest)) := by
  apply List.filter_congr
  intro a ha
  have hne := List.find?_eq_none.mp h a ha
  by_cases he : key a = n
  · simp [he] at hne
  · simp [he, List.mem_cons]

theorem filter_filter_cond_cons {α} (key : α → String) (cond : String → Bool)
    (n : String) (rest : List String) (l : List α) (hc : cond n = true) :
    (l.filter (fun x => key x != n)).filter
        (fun x => !(cond (key x) && decide (key x ∈ rest)))
      = l.filter (fun x => !(cond (key x) && decide (key x ∈ n :: rest))) := by
  rw [List.filter_filter]
  apply List.filter_congr
  intro a _
  by_cases he : key a = n <;> simp [he, hc, List.mem_cons]

theorem filter_cond_cons_of_false {α} (key : α → String) (cond : String → Bool)
    (n : String) (rest : List String) (l : List α) (hc : cond n = false) :
    l.filter (fun x => !(cond (key x) && decide (key x ∈ rest)))
      = l.filter (fun x => !(cond (key x) && decide (key x ∈ n :: rest))) := by
  apply List.filter_congr
  intro a _
  by_cases he : key a = n <;> simp [he, hc, List.mem_cons]

theorem filter_cond_cons_of_absent {α} (key : α → String) (cond : String → Bool)
    (n : String) (rest : List String) (l : List α)
    (h : l.find? (fun x => key x == n) = none) :
    l.filter (fun x => !(cond (key x) && decide (key x ∈ rest)))
      = l.filter (fun x => !(cond (key x) && decide (key x ∈ n :: rest))) := by
  apply List.filter_congr
  intro a ha
  have hne := List.find?_eq_none.mp h a ha
  by_cases he : key a = n
  · simp [he] at hne
  · simp [he, List.mem_cons]

theorem filter_cond_mem_all {α} (key : α → String) (cond : String → Bool)
    (l : List α) (ids : List String) (h : ∀ a ∈ l, key a ∈ ids) :
    l.filter (fun x => !(cond (key x) && decide (key x ∈ ids)))
      = l.filter (fun x => !(cond (key x))) := by
  apply List.filter_congr
  intro a ha
  simp [h a ha]

/-- The layer-removal loop of the remove-all branch: with distinct,
present identifiers, it removes exactly those layers and counts each. -/
theorem removeLayersLoop_spec :
    ∀ (ids : List String) (m : MapState) (c : Nat),
      ids.Nodup → (∀ id ∈ ids, (m.getLayer? id).isSome = true) →
      removeLayersLoop ids m c
        = ({m with
            layers := m.layers.filter (fun l => !decide (l.id ∈ ids))},
           c + ids.length) := by
  intro ids
  induction ids with
  | nil =>
      intro m c _ _
      simp [removeLayersLoop]
  | cons id rest ih =>
      intro m c hnd hpres
      have hid : (m.getLayer? id).isSome = true := hpres id (by simp)
      have hnd' : rest.Nodup := (List.nodup_cons.mp hnd).2
      have hnotmem : id ∉ rest := (List.nodup_cons.mp hnd).1
      have hpres' : ∀ x ∈ rest, ((m.removeLayerD id).getLayer? x).isSome = true := by
        intro x hx
        rw [getLayer?_removeLayerD_ne m (fun he => hnotmem (by rw [← he]; exact hx))]
        exact hpres x (by simp [hx])
      simp only [removeLayersLoop, hid, if_true]
      rw [ih (m.removeLayerD id) (c + 1) hnd' hpres']
      unfold MapState.removeLayerD
      refine Prod.ext ?_ ?_
      · simp only
        congr 1
        exact filter_filter_mem_cons (fun l => l.id) id rest m.layers
      · simp only [List.length_cons]
        omega

/-- The `-layer-` source sweep of the remove-all branch. -/
theorem removeDashLayerSources_spec :
    ∀ (ids : List String) (m : MapState),
      removeDashLayerSources ids m
        = {m with
            sources := m.sources.filter
              (fun p => !(jsIncludes p.1 "-layer-" && decide (p.1 ∈ ids)))} := by
  intro ids
  induction ids with
  | nil => intro m; simp [removeDashLayerSources]
  | cons id rest ih =>
      intro m
      simp only [removeDashLayerSources, List.foldl_cons] at ih ⊢
      by_cases hc : jsIncludes id "-layer-" = true
      · rw [if_pos hc, ih]
        unfold MapState.removeSourceD
        congr 1
        exact filter_filter_cond_cons (fun p => p.1) (fun s => jsIncludes s "-layer-")
          id rest m.sources hc
      · have hc' : jsIncludes id "-layer-" = false := by simpa using hc
        rw [if_neg (by simp [hc']), ih]
        congr 1
        exact filter_cond_cons_of_false (fun p => p.1) (fun s => jsIncludes s "-layer-")
          id rest m.sources hc'

/-- The guarded conditional source-removal fold underlying the orphan
sweep. -/
theorem foldCondRemove_spec (cond : String → Bool) :
    ∀ (ids : List String) (m : MapState),
      ids.foldl (fun acc id => if cond id && (acc.getSource? id).isSome
          then acc.removeSourceD id else acc) m
      = {m with
          sources := m.sources.filter
            (fun p => !(cond p.1 && decide (p.1 ∈ ids)))} := by
  intro ids
  induction ids with
  | nil => intro m; simp
  | cons id rest ih =>
      intro m
      simp only [List.foldl_cons]
      by_cases hc : cond id = true
      · by_cases hp : (m.getSource? id).isSome = true
        · rw [if_pos (by simp [hc, hp]), ih]
          unfold MapState.removeSourceD
          congr 1
          exact filter_filter_cond_cons (fun p => p.1) cond id rest m.sources hc
        · have hp0 : m.sources.find? (fun p => p.1 == id) = none := by
            simp only [MapState.getSource?] at hp
            rcases hf : m.sources.find? (fun p => p.1 == id) with _ | v
            · exact hf
            · rw [hf] at hp; simp at hp
          rw [if_neg (by simp [hp]), ih]
          congr 1
          exact filter_cond_cons_of_absent (fun p => p.1) cond id rest m.sources hp0
      · have hc' : cond id = false := by simpa using hc
        rw [if_neg (by simp [hc']), ih]
        congr 1
        exact filter_cond_cons_of_false (fun p => p.1) cond id rest m.sources hc'

theorem sweepOrphanVectorSources_spec (ids : List String) (m : MapState) :
    sweepOrphanVectorSources ids m
      = {m with
          sources := m.sources.filter
            (fun p => !((jsEndsWith p.1 "-vector-source"
                && !((usedOf m.layers).contains p.1))
              && decide (p.1 ∈ ids)))} := by
  unfold sweepOrphanVectorSources
  exact foldCondRemove_spec
    (fun id => jsEndsWith id "-vector-source" && !((usedOf m.layers).contains id)) ids m

/-- Characterization of `clearMapLayers({})`'s remove-all branch on a
well-formed style (no duplicate layer ids): it removes exactly the
convention-matching layers (counting them), the `-layer-` sources, and
the orphaned `-vector-source` sources. -/
theorem clearAll_branch_spec (t : MapboxMapTools)
    (hwf : (t.map.layers.map (fun l => l.id)).Nodup) :
    t.clearMapLayers (.obj []) = (.ok (textEnv ("Removed "
        ++ natStr (t.map.layers.filter (fun l => convMatch l.id)).length
        ++ " layers from the map")),
      {t with
        map := {t.map with
          layers := t.map.layers.filter (fun l => !convMatch l.id),
          sources := (t.map.sources.filter
              (fun p => !jsIncludes p.1 "-layer-")).filter
            (fun p => !(jsEndsWith p.1 "-vector-source"
              && !((usedOf (t.map.layers.filter
                  (fun l => !convMatch l.id))).contains p.1)))}}) := by
  have hnodup : ((t.map.layers.filter (fun l => convMatch l.id)).map
      (fun l => l.id)).Nodup :=
    hwf.sublist ((List.filter_sublist t.map.layers).map (fun l => l.id))
  have hpres : ∀ id ∈ (t.map.layers.filter (fun l => convMatch l.id)).map
      (fun l => l.id), (t.map.getLayer? id).isSome = true := by
    intro id hid
    obtain ⟨l, hl, he⟩ := List.mem_map.mp hid
    exact List.find?_isSome.mpr ⟨l, (List.mem_filter.mp hl).1, by simp [he]⟩
  have hloop := removeLayersLoop_spec
    ((t.map.layers.filter (fun l => convMatch l.id)).map (fun l => l.id))
    t.map 0 hnodup hpres
  have hconv : t.map.layers.filter (fun l => !decide (l.id ∈
      (t.map.layers.filter (fun l => convMatch l.id)).map (fun l => l.id)))
      = t.map.layers.filter (fun l => !convMatch l.id) := by
    apply List.filter_congr
    intro l hl
    by_cases hcv : convMatch l.id = true
    · have : l.id ∈ (t.map.layers.filter (fun l => convMatch l.id)).map
          (fun l => l.id) :=
        List.mem_map.mpr ⟨l, List.mem_filter.mpr ⟨hl, hcv⟩, rfl⟩
      simp [hcv, this]
    · have hcv' : convMatch l.id = false := by simpa using hcv
      have hnm : l.id ∉ (t.map.layers.filter (fun l => convMatch l.id)).map
          (fun l => l.id) := by
        intro hmem
        obtain ⟨l', hl', he⟩ := List.mem_map.mp hmem
        have hc' := (List.mem_filter.mp hl').2
        rw [he] at hc'
        simp [hc'] at hcv'
      simp [hcv', hnm]
  simp only [MapboxMapTools.clearMapLayers, jsGetProp, JVal.getD, List.find?,
    jsDefault, jsLength, jsStrictEqNum, List.length_nil, Nat.cast_zero,
    beq_self_eq_true, if_true, hloop]
  rw [hconv]
  dsimp only [MapState.sourceIds]
  rw [removeDashLayerSources_spec, sweepOrphanVectorSources_spec]
  dsimp only
  rw [filter_cond_mem_all (fun p => p.1) (fun s => jsIncludes s "-layer-")
    t.map.sources (t.map.sources.map (fun p => p.1))
    (fun a ha => List.mem_map.mpr ⟨a, ha, rfl⟩)]
  rw [filter_cond_mem_all (fun p => p.1)
    (fun s => jsEndsWith s "-vector-source"
      && !((usedOf (t.map.layers.filter (fun l => !convMatch l.id))).contains s))
    (t.map.sources.filter (fun p => !jsIncludes p.1 "-layer-"))
    (t.map.sources.map (fun p => p.1))
    (fun a ha => List.mem_map.mpr ⟨a, (List.mem_filter.mp ha).1, rfl⟩)]
  simp [List.length_map]

/-! ## C3 -/

/-- C3 counterexample: a layer created through the library with
`layerName: "cities"` (id `cities-1`) does not match the remove-all
naming convention, so `clearMapLayers({})` removes 0 layers and leaves
it on the map — refuting "removes exactly those N core-created
layers". -/
theorem clearAll_misses_noncore_named_layer :
    (sampleTools.executeTool "add_points_to_map" citiesPointsArgs).2.map.layers.length
      = 1
    ∧ ((sampleTools.executeTool "add_points_to_map" citiesPointsArgs).2.executeTool
        "clear_map_layers" (.obj [])).1
      = textEnv ("Removed " ++ natStr 0 ++ " layers from the map")
    ∧ ((sampleTools.executeTool "add_points_to_map" citiesPointsArgs).2.executeTool
        "clear_map_layers" (.obj [])).2.map.layers.map (fun l => l.id)
      = ["cities-1"] :=
  ⟨rfl, rfl, rfl⟩

/-- C3 amended: on a well-formed style, `clearMapLayers({})` removes
exactly the layers matching the naming convention (`-layer-` substring,
or `-fill`/`-stroke` suffix — which covers every layer created with the
default layer names, but not, e.g., `cities-1`), reports their count,
removes the `-layer-` sources and orphaned `-vector-source` sources,
and returns `isError: false`; an immediate second call removes 0
layers, still returns `isError: false`, and leaves the state exactly
unchanged. -/
theorem clearAll_removes_convention_layers_idempotent (t : MapboxMapTools)
    (hwf : (t.map.layers.map (fun l => l.id)).Nodup)
    (r1 r2 : Envelope × MapboxMapTools)
    (hr1 : r1 = t.executeTool "clear_map_layers" (.obj []))
    (hr2 : r2 = r1.2.executeTool "clear_map_layers" (.obj [])) :
    r1.1 = textEnv ("Removed "
        ++ natStr (t.map.layers.filter (fun l => convMatch l.id)).length
        ++ " layers from the map")
    ∧ r1.1.isError = false
    ∧ r1.2.map.layers = t.map.layers.filter (fun l => !convMatch l.id)
    ∧ r1.2.map.sources = (t.map.sources.filter
        (fun p => !jsIncludes p.1 "-layer-")).filter
        (fun p => !(jsEndsWith p.1 "-vector-source"
          && !((usedOf (t.map.layers.filter
              (fun l => !convMatch l.id))).contains p.1)))
    ∧ r2.1 = textEnv ("Removed " ++ natStr 0 ++ " layers from the map")
    ∧ r2.1.isError = false
    ∧ r2.2 = r1.2 := by
  have hLL : (t.map.layers.filter (fun l => !convMatch l.id)).filter
      (fun l => !convMatch l.id)
      = t.map.layers.filter (fun l => !convMatch l.id) := by
    rw [List.filter_filter]
    apply List.filter_congr
    intro a _
    cases h : convMatch a.id <;> simp [h]
  have hL0 : (t.map.layers.filter (fun l => !convMatch l.id)).filter
      (fun l => convMatch l.id) = [] := by
    rw [List.filter_filter]
    have : (fun (l : LayerDef) => convMatch l.id && !convMatch l.id)
        = fun _ => false := by
      funext l
      cases h : convMatch l.id <;> simp [h]
    rw [this, List.filter_false]
  subst hr2
  subst hr1
  rw [executeTool_eq, rawDispatch_clear, clearAll_branch_spec t hwf]
  dsimp only [execWrap]
  rw [executeTool_eq, rawDispatch_clear, clearAll_branch_spec _ ?hwf2]
  case hwf2 =>
    dsimp only
    exact hwf.sublist ((List.filter_sublist t.map.layers).map (fun l => l.id))
  dsimp only [execWrap]
  rw [hL0, hLL]
  refine ⟨rfl, rfl, rfl, rfl, rfl, rfl, ?_⟩
  have hS : ∀ (S : List (String × SourceDef)) (B : String → Bool),
      (((S.filter (fun p => !jsIncludes p.1 "-layer-")).filter
          (fun p => !(B p.1))).filter
        (fun p => !jsIncludes p.1 "-layer-")).filter (fun p => !(B p.1))
      = (S.filter (fun p => !jsIncludes p.1 "-layer-")).filter
          (fun p => !(B p.1)) := by
    intro S B
    simp only [List.filter_filter]
    apply List.filter_congr
    intro a _
    cases h1 : jsIncludes a.1 "-layer-" <;> cases h2 : B a.1 <;> simp [h1, h2]
  have hfix := hS t.map.sources
    (fun s => jsEndsWith s "-vector-source"
      && !((usedOf (t.map.layers.filter (fun l => !convMatch l.id))).contains s))
  rw [hfix]

theorem clearAll_removes_convention_layers_idempotent_witness :
    (((sampleTools.executeTool "add_points_to_map"
        (.obj [("points", .arr [])])).2.map.layers.filter
        (fun l => convMatch l.id)).length = 1)
    ∧ ((sampleTools.executeTool "add_points_to_map"
        (.obj [("points", .arr [])])).2.executeTool
        "clear_map_layers" (.obj [])).1
      = textEnv ("Removed " ++ natStr ((sampleTools.executeTool "add_points_to_map"
          (.obj [("points", .arr [])])).2.map.layers.filter
          (fun l => convMatch l.id)).length ++ " layers from the map")
    ∧ (((sampleTools.executeTool "add_points_to_map"
          (.obj [("points", .arr [])])).2.executeTool
          "clear_map_layers" (.obj [])).2.executeTool
          "clear_map_layers" (.obj [])).1
      = textEnv ("Removed " ++ natStr 0 ++ " layers from the map")
    ∧ (((sampleTools.executeTool "add_points_to_map"
          (.obj [("points", .arr [])])).2.executeTool
          "clear_map_layers" (.obj [])).2.executeTool
          "clear_map_layers" (.obj [])).2
      = ((sampleTools.executeTool "add_points_to_map"
          (.obj [("points", .arr [])])).2.executeTool
          "clear_map_layers" (.obj [])).2 := by
  have h := clearAll_removes_convention_layers_idempotent
    (sampleTools.executeTool "add_points_to_map" (.obj [("points", .arr [])])).2
    (by decide)
    ((sampleTools.executeTool "add_points_to_map"
      (.obj [("points", .arr [])])).2.executeTool "clear_map_layers" (.obj []))
    (((sampleTools.executeTool "add_points_to_map"
      (.obj [("points", .arr [])])).2.executeTool
      "clear_map_layers" (.obj [])).2.executeTool "clear_map_layers" (.obj []))
    rfl rfl
  exact ⟨by decide, h.1, h.2.2.2.2.1, h.2.2.2.2.2.2⟩

/-! ## C9 -/

/-- The explicit-names loop of `clearMapLayers`: with distinct names on
a well-formed style, it removes exactly the named layers (counting the
ones that existed) and the same-named sources. -/
theorem removeNamedLoop_spec :
    ∀ (names : List String) (m : MapState) (c : Nat),
      names.Nodup → (m.layers.map (fun l => l.id)).Nodup →
      removeNamedLoop (names.map JVal.str) m c
        = ({m with
            layers := m.layers.filter (fun l => !decide (l.id ∈ names)),
            sources := m.sources.filter (fun p => !decide (p.1 ∈ names))},
           c + (names.filter (fun n => (m.getLayer? n).isSome)).length) := by
  intro names
  induction names with
  | nil => intro m c _ _; simp [removeNamedLoop]
  | cons n rest ih =>
      intro m c hnd hwf
      have hnd' : rest.Nodup := (List.nodup_cons.mp hnd).2
      have hnmem : n ∉ rest := (List.nodup_cons.mp hnd).1
      -- the intermediate state after removing layer and source named n
      have hstep : ∀ (M : MapState), M.layers = m.layers.filter (fun l => l.id != n)
          → M.sources = m.sources.filter (fun p => p.1 != n)
          → M.camera = m.camera → M.styleUrl = m.styleUrl
          → M.listeners = m.listeners → M.rendered = m.rendered
          → M.renderedQueryLog = m.renderedQueryLog
          → ∀ (c' : Nat), removeNamedLoop (rest.map JVal.str) M c'
          = ({m with
              layers := m.layers.filter (fun l => !decide (l.id ∈ n :: rest)),
              sources := m.sources.filter (fun p => !decide (p.1 ∈ n :: rest))},
             c' + (rest.filter (fun x => (m.getLayer? x).isSome)).length) := by
        intro M hML hMS hc hs hlis hr hq c'
        have hwf' : (M.layers.map (fun l => l.id)).Nodup := by
          rw [hML]
          exact hwf.sublist ((List.filter_sublist m.layers).map (fun l => l.id))
        rw [ih M c' hnd' hwf']
        have hcount : rest.filter (fun x => (M.getLayer? x).isSome)
            = rest.filter (fun x => (m.getLayer? x).isSome) := by
          apply List.filter_congr
          intro x hx
          have hxn : x ≠ n := fun he => hnmem (he ▸ hx)
          unfold MapState.getLayer?
          rw [hML]
          rw [find?_filter_of_imp _ _ _ (fun l hl => by
            have : l.id = x := by simpa using hl
            simp [this, hxn])]
        rw [hcount]
        refine Prod.ext ?_ rfl
        simp only
        cases M
        simp only at hML hMS hc hs hlis hr hq
        subst hML hMS hc hs hlis hr hq
        congr 1
        · exact filter_filter_mem_cons (fun l => l.id) n rest m.layers
        · exact filter_filter_mem_cons (fun p => p.1) n rest m.sources
      simp only [List.map_cons, removeNamedLoop]
      by_cases hpl : (m.getLayer? n).isSome = true
      · simp only [JVal.toStr, hpl, if_true]
        by_cases hps : ((m.removeLayerD n).getSource? n).isSome = true
        · rw [if_pos hps]
          rw [hstep ((m.removeLayerD n).removeSourceD n) rfl rfl rfl rfl rfl rfl rfl]
          rw [List.filter_cons_of_pos (by simp [hpl])]
          simp only [List.length_cons]
          refine Prod.ext rfl ?_
          simp only
          omega
        · rw [if_neg hps]
          have hsn : m.sources.find? (fun p => p.1 == n) = none := by
            simp only [MapState.removeLayerD, MapState.getSource?] at hps
            rcases hf : m.sources.find? (fun p => p.1 == n) with _ | v
            · exact hf
            · rw [hf] at hps; simp at hps
          rw [hstep (m.removeLayerD n) rfl
            (show (m.removeLayerD n).sources = m.sources.filter (fun p => p.1 != n)
              from (filter_bne_eq_self (fun q : String × SourceDef => q.1)
                n m.sources hsn).symm)
            rfl rfl rfl rfl rfl]
          rw [List.filter_cons_of_pos (by simp [hpl])]
          simp only [List.length_cons]
          refine Prod.ext rfl ?_
          simp only
          omega
      · have hpl' : (m.getLayer? n).isSome = false := by simpa using hpl
        have hln : m.layers.find? (fun l => l.id == n) = none := by
          simp only [MapState.getLayer?] at hpl'
          rcases hf : m.layers.find? (fun l => l.id == n) with _ | v
          · exact hf
          · rw [hf] at hpl'; simp at hpl'
        simp only [JVal.toStr, hpl', Bool.false_eq_true, if_false]
        by_cases hps : (m.getSource? n).isSome = true
        · rw [if_pos hps]
          rw [hstep (m.removeSourceD n)
            (show (m.removeSourceD n).layers = m.layers.filter (fun l => l.id != n)
              from (filter_bne_eq_self (fun d : LayerDef => d.id)
                n m.layers hln).symm)
            rfl rfl rfl rfl rfl rfl]
          rw [List.filter_cons_of_neg (by simp [hpl'])]
        · rw [if_neg hps]
          have hsn : m.sources.find? (fun p => p.1 == n) = none := by
            simp only [MapState.getSource?] at hps
            rcases hf : m.sources.find? (fun p => p.1 == n) with _ | v
            · exact hf
            · rw [hf] at hps; simp at hps
          rw [hstep m
            (show m.layers = m.layers.filter (fun l => l.id != n)
              from (filter_bne_eq_self (fun l => l.id) n m.layers hln).symm)
            (show m.sources = m.sources.filter (fun p => p.1 != n)
              from (filter_bne_eq_self (fun q : String × SourceDef => q.1)
                n m.sources hsn).symm)
            rfl rfl rfl rfl rfl]
          rw [List.filter_cons_of_neg (by simp [hpl'])]

/-- Characterization of `clearMapLayers` with an explicit non-empty
list of names: it removes exactly the named layers (counting the ones
that existed) and same-named sources, then sweeps the orphaned
`-vector-source` sources. -/
theorem clearNamed_branch_spec (t : MapboxMapTools) (names : List String)
    (hne : names ≠ []) (hnd : names.Nodup)
    (hwf : (t.map.layers.map (fun l => l.id)).Nodup) :
    t.clearMapLayers (.obj [("layerNames", .arr (names.map JVal.str))])
      = (.ok (textEnv ("Removed "
          ++ natStr (names.filter (fun n => (t.map.getLayer? n).isSome)).length
          ++ " layers from the map")),
        {t with
          map := {t.map with
            layers := t.map.layers.filter (fun l => !decide (l.id ∈ names)),
            sources := (t.map.sources.filter
                (fun p => !decide (p.1 ∈ names))).filter
              (fun p => !(jsEndsWith p.1 "-vector-source"
                && !((usedOf (t.map.layers.filter
                    (fun l => !decide (l.id ∈ names)))).contains p.1)))}}) := by
  have hlen : ((names.map JVal.str).length : Rat) ≠ 0 := by
    have : names.map JVal.str ≠ [] := by
      intro h
      exact hne (List.map_eq_nil_iff.mp h)
    have hpos : 0 < (names.map JVal.str).length := List.length_pos.mpr this
    intro hc
    rw [Nat.cast_eq_zero] at hc
    omega
  have hloop := removeNamedLoop_spec names t.map 0 hnd hwf
  simp only [MapboxMapTools.clearMapLayers, jsGetProp, JVal.getD, List.find?,
    jsDefault, jsLength, jsStrictEqNum, beq_self_eq_true, beq_iff_eq,
    if_neg hlen, hloop]
  simp only [MapState.sourceIds]
  rw [sweepOrphanVectorSources_spec]
  rw [filter_cond_mem_all (fun p => p.1)
    (fun s => jsEndsWith s "-vector-source"
      && !((usedOf (t.map.layers.filter
          (fun l => !decide (l.id ∈ names)))).contains s))
    (t.map.sources.filter (fun p => !decide (p.1 ∈ names)))
    ((t.map.sources.filter (fun p => !decide (p.1 ∈ names))).map (fun p => p.1))
    (fun a ha => List.mem_map.mpr ⟨a, ha, rfl⟩)]
  simp

/-- C9 counterexample: after `add_polygon_to_map` returns layerId
`polygon-layer-1`, passing exactly that id to `clear_map_layers`
removes NO rendered layer — the polygon's `-fill` and `-stroke` layers
stay on the map (only the same-named source goes away) — refuting
"removes exactly that polygon's rendered layers and its source". -/
theorem clear_polygon_base_id_counterexample :
    (sampleTools.executeTool "add_polygon_to_map"
      (.obj [("coordinates", .arr [.arr [.arr [.num 0, .num 0],
        .arr [.num 1, .num 0], .arr [.num 0, .num 0]]])])).1.layerId
      = some "polygon-layer-1"
    ∧ ((sampleTools.executeTool "add_polygon_to_map"
        (.obj [("coordinates", .arr [.arr [.arr [.num 0, .num 0],
          .arr [.num 1, .num 0], .arr [.num 0, .num 0]]])])).2.executeTool
        "clear_map_layers" (.obj [("layerNames", .arr [.str "polygon-layer-1"])])).1
      = textEnv ("Removed " ++ natStr 0 ++ " layers from the map")
    ∧ ((sampleTools.executeTool "add_polygon_to_map"
        (.obj [("coordinates", .arr [.arr [.arr [.num 0, .num 0],
          .arr [.num 1, .num 0], .arr [.num 0, .num 0]]])])).2.executeTool
        "clear_map_layers"
        (.obj [("layerNames", .arr [.str "polygon-layer-1"])])).2.map.layers.map
        (fun l => l.id)
      = ["polygon-layer-1-fill", "polygon-layer-1-stroke"] :=
  ⟨rfl, rfl, rfl⟩

/-- C9 amended: with explicit names, `clearMapLayers` removes exactly
the named layers (counting those that existed) and the same-named
sources, then sweeps orphaned `-vector-source` sources.  In particular,
passing the layerId returned by `add_polygon_to_map` removes only the
polygon's SOURCE: the base id names no rendered layer, so the `-fill`
and `-stroke` layers remain on the map and the reported count is 0. -/
theorem clear_explicit_names_spec :
    (∀ (t : MapboxMapTools) (names : List String), names ≠ [] → names.Nodup →
      (t.map.layers.map (fun l => l.id)).Nodup →
      t.executeTool "clear_map_layers"
          (.obj [("layerNames", .arr (names.map JVal.str))])
        = (textEnv ("Removed "
            ++ natStr (names.filter (fun n => (t.map.getLayer? n).isSome)).length
            ++ " layers from the map"),
          {t with
            map := {t.map with
              layers := t.map.layers.filter (fun l => !decide (l.id ∈ names)),
              sources := (t.map.sources.filter
                  (fun p => !decide (p.1 ∈ names))).filter
                (fun p => !(jsEndsWith p.1 "-vector-source"
                  && !((usedOf (t.map.layers.filter
                      (fun l => !decide (l.id ∈ names)))).contains p.1)))}}))
    ∧ (∀ (t : MapboxMapTools) (coords : JVal),
        (t.map.layers.map (fun l => l.id)).Nodup →
        t.map.getSource? ("polygon-layer-" ++ natStr (t.layerCounter + 1)) = none →
        t.map.getLayer? ("polygon-layer-" ++ natStr (t.layerCounter + 1)) = none →
        t.map.getLayer?
          ("polygon-layer-" ++ natStr (t.layerCounter + 1) ++ "-fill") = none →
        t.map.getLayer?
          ("polygon-layer-" ++ natStr (t.layerCounter + 1) ++ "-stroke") = none →
        ∀ (r : Envelope × MapboxMapTools),
        r = ((t.executeTool "add_polygon_to_map"
            (.obj [("coordinates", coords)])).2.executeTool "clear_map_layers"
          (.obj [("layerNames",
            .arr (["polygon-layer-" ++ natStr (t.layerCounter + 1)].map JVal.str))])) →
        r.1 = textEnv ("Removed " ++ natStr 0 ++ " layers from the map")
        ∧ (r.2.map.getLayer?
            ("polygon-layer-" ++ natStr (t.layerCounter + 1) ++ "-fill")).isSome
          = true
        ∧ (r.2.map.getLayer?
            ("polygon-layer-" ++ natStr (t.layerCounter + 1) ++ "-stroke")).isSome
          = true
        ∧ r.2.map.getSource?
            ("polygon-layer-" ++ natStr (t.layerCounter + 1)) = none) := by
  constructor
  · intro t names hne hnd hwf
    rw [executeTool_eq, rawDispatch_clear, clearNamed_branch_spec t names hne hnd hwf]
    dsimp only [execWrap]
  · intro t coords hwf hs hnb hf hk r hr
    have hfneq : ("polygon-layer-" ++ natStr (t.layerCounter + 1) ++ "-fill")
        ≠ ("polygon-layer-" ++ natStr (t.layerCounter + 1)) :=
      Ne.symm (string_ne_append_of_ne_nil _ (by decide))
    have hkneq : ("polygon-layer-" ++ natStr (t.layerCounter + 1) ++ "-stroke")
        ≠ ("polygon-layer-" ++ natStr (t.layerCounter + 1)) :=
      Ne.symm (string_ne_append_of_ne_nil _ (by decide))
    have hnb' : t.map.layers.find?
        (fun l => l.id == ("polygon-layer-" ++ natStr (t.layerCounter + 1)))
        = none := by
      simpa [MapState.getLayer?] using hnb
    have hf' : t.map.layers.find?
        (fun l => l.id == ("polygon-layer-" ++ natStr (t.layerCounter + 1) ++ "-fill"))
        = none := by
      simpa [MapState.getLayer?] using hf
    have hk' : t.map.layers.find?
        (fun l => l.id == ("polygon-layer-" ++ natStr (t.layerCounter + 1) ++ "-stroke"))
        = none := by
      simpa [MapState.getLayer?] using hk
    subst hr
    rw [executeTool_eq t "add_polygon_to_map" (.obj [("coordinates", coords)]),
      rawDispatch_polygon, addPolygon_step t coords hs hf hk]
    dsimp only [execWrap]
    rw [executeTool_eq _ "clear_map_layers" _, rawDispatch_clear,
      clearNamed_branch_spec _ ["polygon-layer-" ++ natStr (t.layerCounter + 1)]
        (by simp) (by simp) ?hwfT]
    case hwfT =>
      dsimp only
      rw [List.map_append, List.nodup_append]
      refine ⟨hwf, ?_, ?_⟩
      · simp [polyFillCfg, polyStrokeCfg]
        exact string_append_right_ne _ (by decide)
      · intro a ha
        obtain ⟨l, hl, he⟩ := List.mem_map.mp ha
        simp only [polyFillCfg, polyStrokeCfg, List.map_cons, List.map_nil,
          List.mem_cons, List.mem_singleton, List.not_mem_nil]
        rintro (he2 | he2 | he2)
        · have := List.find?_eq_none.mp hf' l hl
          simp [he, he2] at this
        · have := List.find?_eq_none.mp hk' l hl
          simp [he, he2] at this
        · exact he2
    dsimp only [execWrap]
    have hbase : (t.map.layers
        ++ [polyFillCfg t.options ("polygon-layer-" ++ natStr (t.layerCounter + 1)),
            polyStrokeCfg t.options
              ("polygon-layer-" ++ natStr (t.layerCounter + 1))]).find?
        (fun l => l.id == ("polygon-layer-" ++ natStr (t.layerCounter + 1)))
        = none := by
      rw [List.find?_append, hnb']
      simp [polyFillCfg, polyStrokeCfg, List.find?,
        beq_eq_false_iff_ne.mpr hfneq, beq_eq_false_iff_ne.mpr hkneq]
    refine ⟨?_, ?_, ?_, ?_⟩
    · have : (["polygon-layer-" ++ natStr (t.layerCounter + 1)].filter
          (fun n => (MapState.getLayer? {t.map with
            sources := t.map.sources
              ++ [("polygon-layer-" ++ natStr (t.layerCounter + 1),
                  polySourceCfg coords)],
            layers := t.map.layers
              ++ [polyFillCfg t.options
                    ("polygon-layer-" ++ natStr (t.layerCounter + 1)),
                  polyStrokeCfg t.options
                    ("polygon-layer-" ++ natStr (t.layerCounter + 1))]} n).isSome))
          = [] := by
        rw [List.filter_cons_of_neg, List.filter_nil]
        simp only [MapState.getLayer?]
        rw [hbase]
        simp
      rw [this]
      rfl
    · apply List.find?_isSome.mpr
      refine ⟨polyFillCfg t.options ("polygon-layer-" ++ natStr (t.layerCounter + 1)),
        List.mem_filter.mpr ⟨List.mem_append_right _ (by simp), ?_⟩, by simp [polyFillCfg]⟩
      simp [polyFillCfg, hfneq]
    · apply List.find?_isSome.mpr
      refine ⟨polyStrokeCfg t.options ("polygon-layer-" ++ natStr (t.layerCounter + 1)),
        List.mem_filter.mpr ⟨List.mem_append_right _ (by simp), ?_⟩, by simp [polyStrokeCfg]⟩
      simp [polyStrokeCfg, hkneq]
    · simp only [MapState.getSource?]
      rw [List.find?_eq_none.mpr]
      · rfl
      · intro p hp
        have hp1 := (List.mem_filter.mp (List.mem_filter.mp hp).1).2
        simp only [List.mem_singleton, decide_not] at hp1
        intro hpe
        have : p.1 = ("polygon-layer-" ++ natStr (t.layerCounter + 1)) := by
          simpa using hpe
        simp [this] at hp1

/-- Witness for the C9 amended theorem: a concrete triangle polygon on a
fresh dispatcher, then clearing by the returned base layerId. -/
theorem clear_explicit_names_spec_witness :
    ((sampleTools.executeTool "add_polygon_to_map"
        (.obj [("coordinates",
          JVal.arr [.arr [.arr [.num 0, .num 0], .arr [.num 1, .num 0],
            .arr [.num 0, .num 0]]])])).2.executeTool "clear_map_layers"
      (.obj [("layerNames",
        .arr (["polygon-layer-" ++ natStr (sampleTools.layerCounter + 1)].map
          JVal.str))])).1
      = textEnv ("Removed " ++ natStr 0 ++ " layers from the map") :=
  (clear_explicit_names_spec.2 sampleTools
    (JVal.arr [.arr [.arr [.num 0, .num 0], .arr [.num 1, .num 0],
      .arr [.num 0, .num 0]]])
    List.nodup_nil rfl rfl rfl rfl _ rfl).1

/-! ## C4: layer-counter tick discipline -/

theorem executeTool_snd (t : MapboxMapTools) (name : String) (args : JVal) :
    (t.executeTool name args).2 = (t.rawDispatch name args).2 := by
  unfold MapboxMapTools.executeTool
  rcases t.rawDispatch name args with ⟨e, t1⟩
  cases e <;> rfl

theorem addPoints_counter_cases (t : MapboxMapTools) (args : JVal) :
    (t.addPointsToMap args).2.layerCounter = t.layerCounter
    ∨ (t.addPointsToMap args).2.layerCounter = t.layerCounter + 1 := by
  unfold MapboxMapTools.addPointsToMap
  dsimp only
  repeat' split
  all_goals dsimp only
  all_goals first | exact Or.inl rfl | exact Or.inr rfl

theorem addRoute_counter_cases (t : MapboxMapTools) (args : JVal) :
    (t.addRouteToMap args).2.layerCounter = t.layerCounter
    ∨ (t.addRouteToMap args).2.layerCounter = t.layerCounter + 1 := by
  unfold MapboxMapTools.addRouteToMap
  dsimp only
  repeat' split
  all_goals dsimp only
  all_goals first | exact Or.inl rfl | exact Or.inr rfl

theorem addPolygon_counter_cases (t : MapboxMapTools) (args : JVal) :
    (t.addPolygonToMap args).2.layerCounter = t.layerCounter
    ∨ (t.addPolygonToMap args).2.layerCounter = t.layerCounter + 1 := by
  unfold MapboxMapTools.addPolygonToMap
  dsimp only
  repeat' split
  all_goals dsimp only
  all_goals first | exact Or.inl rfl | exact Or.inr rfl

theorem addVector_counter_cases (t : MapboxMapTools) (args : JVal) :
    (t.addVectorTilesetLayer args).2.layerCounter = t.layerCounter
    ∨ (t.addVectorTilesetLayer args).2.layerCounter = t.layerCounter + 1 := by
  unfold MapboxMapTools.addVectorTilesetLayer
  dsimp only
  repeat' split
  all_goals dsimp only
  all_goals first | exact Or.inl rfl | exact Or.inr rfl

theorem pan_counter_eq (t : MapboxMapTools) (args : JVal) :
    (t.panMapToLocation args).2.layerCounter = t.layerCounter := by
  unfold MapboxMapTools.panMapToLocation
  dsimp only
  repeat' split
  all_goals dsimp only
  all_goals rfl

theorem fit_counter_eq (t : MapboxMapTools) (args : JVal) :
    (t.fitMapToBounds args).2.layerCounter = t.layerCounter := by
  unfold MapboxMapTools.fitMapToBounds
  dsimp only
  repeat' split
  all_goals dsimp only
  all_goals rfl

theorem clear_counter_eq (t : MapboxMapTools) (args : JVal) :
    (t.clearMapLayers args).2.layerCounter = t.layerCounter := by
  unfold MapboxMapTools.clearMapLayers
  dsimp only
  repeat' split
  all_goals dsimp only
  all_goals rfl

theorem style_counter_eq (t : MapboxMapTools) (args : JVal) :
    (t.setMapStyle args).2.layerCounter = t.layerCounter := by
  unfold MapboxMapTools.setMapStyle
  dsimp only
  repeat' split
  all_goals dsimp only
  all_goals rfl

theorem queryRendered_counter_eq (t : MapboxMapTools) (args : JVal) :
    (t.queryRenderedFeatures args).2.layerCounter = t.layerCounter := by
  unfold MapboxMapTools.queryRenderedFeatures
  dsimp only
  repeat' split
  all_goals dsimp only
  all_goals rfl

theorem querySource_counter_eq (t : MapboxMapTools) (args : JVal) :
    (t.querySourceFeatures args).2.layerCounter = t.layerCounter := by
  unfold MapboxMapTools.querySourceFeatures
  dsimp only
  repeat' split
  all_goals dsimp only
  all_goals rfl

theorem addPoints_counter_tick (t : MapboxMapTools) (args : JVal)
    (h1 : args ≠ .null) (h2 : args ≠ .undef) :
    (t.addPointsToMap args).2.layerCounter = t.layerCounter + 1 := by
  have hok : jsGetProp args "points" = .ok (args.getD "points") := by
    cases args <;> simp_all [jsGetProp]
  unfold MapboxMapTools.addPointsToMap
  rw [hok]
  dsimp only
  repeat' split
  all_goals dsimp only
  all_goals rfl

theorem addRoute_counter_tick (t : MapboxMapTools) (args : JVal)
    (h1 : args ≠ .null) (h2 : args ≠ .undef) :
    (t.addRouteToMap args).2.layerCounter = t.layerCounter + 1 := by
  have hok : jsGetProp args "coordinates" = .ok (args.getD "coordinates") := by
    cases args <;> simp_all [jsGetProp]
  unfold MapboxMapTools.addRouteToMap
  rw [hok]
  dsimp only
  repeat' split
  all_goals dsimp only
  all_goals rfl

theorem addPolygon_counter_tick (t : MapboxMapTools) (args : JVal)
    (h1 : args ≠ .null) (h2 : args ≠ .undef) :
    (t.addPolygonToMap args).2.layerCounter = t.layerCounter + 1 := by
  have hok : jsGetProp args "coordinates" = .ok (args.getD "coordinates") := by
    cases args <;> simp_all [jsGetProp]
  unfold MapboxMapTools.addPolygonToMap
  rw [hok]
  dsimp only
  repeat' split
  all_goals dsimp only
  all_goals rfl

theorem addVector_url_tick (t : MapboxMapTools) (url : String) :
    (t.addVectorTilesetLayer (.obj [("tilesetUrl", .str url)])).2.layerCounter
      = if jsValidTilesetUrl url then t.layerCounter + 1 else t.layerCounter := by
  have hok : jsGetProp (.obj [("tilesetUrl", .str url)]) "tilesetUrl"
      = .ok (.str url) := by
    simp [jsGetProp, JVal.getD]
  unfold MapboxMapTools.addVectorTilesetLayer
  rw [hok]
  by_cases hv : jsValidTilesetUrl url = true
  · rw [if_pos hv]
    have hv2 : (!jsValidTilesetUrl url) = false := by simp [hv]
    simp only [hv2, Bool.false_eq_true, if_false]
    repeat' split
    all_goals (try dsimp only)
    all_goals rfl
  · rw [if_neg hv]
    have hv2 : (!jsValidTilesetUrl url) = true := by
      cases h : jsValidTilesetUrl url
      · rfl
      · exact absurd h hv
    simp only [hv2, if_true]

/-- C4 counterexample: `add_vector_tileset_layer` with the malformed
URL `"foo"` fails its URL validation BEFORE the layer counter is
incremented: the call returns the validation error envelope, consumes
no counter tick (the counter stays 0), and leaves the dispatcher state
completely unchanged — refuting "that tick is consumed before any
validation failure". -/
theorem vector_invalid_url_no_tick :
    (sampleTools.executeTool "add_vector_tileset_layer"
      (.obj [("tilesetUrl", .str "foo")])).1
      = mkErrEnv "Invalid tileset URL format. Must start with \"mapbox://\" or \"http(s)://\""
    ∧ (sampleTools.executeTool "add_vector_tileset_layer"
        (.obj [("tilesetUrl", .str "foo")])).2.layerCounter = 0
    ∧ (sampleTools.executeTool "add_vector_tileset_layer"
        (.obj [("tilesetUrl", .str "foo")])).2 = sampleTools :=
  ⟨rfl, rfl, rfl⟩

/-- C4 amended: the layer counter never decreases under any tool call
(it never resets); each of the three geojson creators (points, route,
polygon) consumes exactly one tick whenever its args object is not
null/undefined — the tick precedes every later validation failure; but
`addVectorTilesetLayer` validates the tileset URL FIRST and consumes a
tick only when the URL is valid. -/
theorem layer_counter_tick_discipline :
    (∀ (t : MapboxMapTools) (toolName : String) (args : JVal),
      t.layerCounter ≤ (t.executeTool toolName args).2.layerCounter)
    ∧ (∀ (t : MapboxMapTools) (args : JVal), args ≠ .null → args ≠ .undef →
        (t.executeTool "add_points_to_map" args).2.layerCounter = t.layerCounter + 1
        ∧ (t.executeTool "add_route_to_map" args).2.layerCounter = t.layerCounter + 1
        ∧ (t.executeTool "add_polygon_to_map" args).2.layerCounter
          = t.layerCounter + 1)
    ∧ (∀ (t : MapboxMapTools) (url : String),
        (t.executeTool "add_vector_tileset_layer"
            (.obj [("tilesetUrl", .str url)])).2.layerCounter
          = if jsValidTilesetUrl url then t.layerCounter + 1
            else t.layerCounter) := by
  refine ⟨?_, ?_, ?_⟩
  · intro t name args
    rw [executeTool_snd]
    unfold MapboxMapTools.rawDispatch
    split
    · rcases addPoints_counter_cases t args with h | h <;> rw [h] <;> omega
    · rcases addRoute_counter_cases t args with h | h <;> rw [h] <;> omega
    · rw [pan_counter_eq]
    · rw [fit_counter_eq]
    · rcases addPolygon_counter_cases t args with h | h <;> rw [h] <;> omega
    · rw [clear_counter_eq]
    · rw [style_counter_eq]
    · rcases addVector_counter_cases t args with h | h <;> rw [h] <;> omega
    · rw [queryRendered_counter_eq]
    · rw [querySource_counter_eq]
    · exact Nat.le_refl _
  · intro t args h1 h2
    refine ⟨?_, ?_, ?_⟩
    · rw [executeTool_snd, rawDispatch_points, addPoints_counter_tick t args h1 h2]
    · rw [executeTool_snd, rawDispatch_route, addRoute_counter_tick t args h1 h2]
    · rw [executeTool_snd, rawDispatch_polygon, addPolygon_counter_tick t args h1 h2]
  · intro t url
    rw [executeTool_snd, rawDispatch_vector, addVector_url_tick]

/-- Witness for the C4 amended theorem: an empty points array on a
fresh dispatcher consumes exactly one tick. -/
theorem layer_counter_tick_discipline_witness :
    (sampleTools.executeTool "add_points_to_map"
      (.obj [("points", .arr [])])).2.layerCounter
      = sampleTools.layerCounter + 1 :=
  (layer_counter_tick_discipline.2.1 sampleTools (.obj [("points", .arr [])])
    (fun h => JVal.noConfusion h) (fun h => JVal.noConfusion h)).1


end MapToolsModel
